import Mathlib

/-!
# LínguaMedia front end: history store and application state controller

A shallow embedding of the JavaScript/TypeScript sources

* `src/components/HistoryModal.js` (`loadHistory`, `clearHistory`, `saveToHistory`),
* `services/storage.ts` (`saveToHistory`, `getHistory`, `clearHistory`),
* `src/services/api.js`, `src/services/audio.js`, `src/constants/config.js`,
* `src/hooks/useAppState.js` and `src/screens/HomeScreen.js`,
* `src/components/TextInputModal.js` (`handleSubmit`),
* `App.tsx` (`handleTranslate`, `handleTextSubmit`) with `services/api.ts` and
  `services/speech.ts`.

Modelling conventions.

* Platform services (AsyncStorage, `JSON`, the HTTP backend, expo-av, the clock) are not
  code of the repository.  Their answers are inputs: every handler takes the outcomes of
  the platform calls it awaits, and a rejected promise is an `Except.error`.
* A string stored under a key is represented by what `JSON.parse` makes of it
  (`StoredText`); `JSON.stringify` followed by `JSON.parse` is the identity on the values
  the code writes.  A rejected `setItem`/`removeItem` leaves the storage as it was.
* One handler invocation (an `async` function together with everything it awaits) is one
  step of the model.  React state read by a handler is the state at the invocation, as
  with the closure the handler was created in.
* `console.error` / `console.log` are not modelled.
-/

namespace LinguaMedia

/-! ## JavaScript values -/

/-- A thrown JavaScript `Error`. -/
structure JsError where
  message : String
  deriving DecidableEq, Repr

deriving instance DecidableEq for Except

/-- The JavaScript expression `a || b` for an optional string `a`: `b` when `a` is
absent (`undefined`/`null`) or the empty string, else `a`. -/
def orElse (a : Option String) (b : String) : String :=
  match a with
  | none => b
  | some s => if s = "" then b else s

/-! ## History entries and persisted text -/

/-- The object literal built by both `saveToHistory` functions
(`HistoryEntry` of `services/storage.ts`). -/
structure HistoryEntry where
  id : Nat
  original : String
  translated : String
  language : String
  timestamp : String
  deriving DecidableEq, Repr

/-- A parsed JSON value, as far as the history code tells values apart: an array (of
history entries), or any other value (`null`, a boolean, a number, a string, an object),
for which `Array.isArray` is false and which has no `unshift` method. -/
inductive JsonValue where
  | array (items : List HistoryEntry)
  | other
  deriving DecidableEq, Repr

/-- A string held by AsyncStorage under a key: the empty string, a non-empty string that
`JSON.parse` rejects, or the JSON text of a value. -/
inductive StoredText where
  | empty
  | garbage
  | json (v : JsonValue)
  deriving DecidableEq, Repr

/-- Source `JSON.parse`: a `SyntaxError` on text that is not JSON. -/
def JSON.parse (t : StoredText) : Except JsError JsonValue :=
  match t with
  | .empty => .error ⟨"SyntaxError: Unexpected end of JSON input"⟩
  | .garbage => .error ⟨"SyntaxError: Unexpected token in JSON"⟩
  | .json v => .ok v

/-- Source `JSON.stringify`. -/
def JSON.stringify (v : JsonValue) : StoredText := .json v

/-- Truthiness of a stored string (`historyStr ? … : …`): only `""` is falsy. -/
def StoredText.truthy (t : StoredText) : Bool :=
  match t with
  | .empty => false
  | _ => true

/-! ## AsyncStorage -/

/-- The persistent key-value storage: key ↦ stored string, `none` when the key is absent. -/
abbrev Storage := String → Option StoredText

/-- A storage with no key. -/
def Storage.blank : Storage := fun _ => none

/-- Source `AsyncStorage.getItem(key)`; `rejects` tells whether the platform rejects the call. -/
def AsyncStorage.getItem (rejects : Bool) (st : Storage) (key : String) :
    Except JsError (Option StoredText) :=
  if rejects then .error ⟨"AsyncStorage.getItem failed"⟩ else .ok (st key)

/-- Source `AsyncStorage.setItem(key, value)`. -/
def AsyncStorage.setItem (rejects : Bool) (st : Storage) (key : String) (value : StoredText) :
    Except JsError Storage :=
  if rejects then .error ⟨"AsyncStorage.setItem failed"⟩
  else .ok (fun k => if k = key then some value else st k)

/-- Source `AsyncStorage.removeItem(key)`. -/
def AsyncStorage.removeItem (rejects : Bool) (st : Storage) (key : String) :
    Except JsError Storage :=
  if rejects then .error ⟨"AsyncStorage.removeItem failed"⟩
  else .ok (fun k => if k = key then none else st k)

/-- The clock readings taken by one `saveToHistory` call: `Date.now()` and
`new Date().toISOString()`. -/
structure Clock where
  now : Nat
  iso : String
  deriving DecidableEq, Repr

/-- Which AsyncStorage calls the platform rejects during one operation. -/
structure StorageFaults where
  getRejects : Bool := false
  setRejects : Bool := false
  removeRejects : Bool := false
  deriving DecidableEq, Repr

/-! ## `src/components/HistoryModal.js` -/

namespace HistoryModal

/-- Source `const HISTORY_STORAGE_KEY = '@linguamedia_history'`. -/
def HISTORY_STORAGE_KEY : String := "@linguamedia_history"

/-- The component state of `HistoryModal`: `history` and `loading`. -/
structure ModalState where
  history : List HistoryEntry := []
  loading : Bool := true
  deriving DecidableEq, Repr

/-- Source `loadHistory` (lines 19-35): reads the slot, parses it, keeps the parsed value when
it is an array and `[]` otherwise; any exception ends in `setHistory([])`; `finally`
clears `loading`. -/
def loadHistory (getRejects : Bool) (st : Storage) (_m : ModalState) : ModalState :=
  match AsyncStorage.getItem getRejects st HISTORY_STORAGE_KEY with
  | .error _ => { history := [], loading := false }
  | .ok none => { history := [], loading := false }
  | .ok (some jsonValue) =>
    match JSON.parse jsonValue with
    | .error _ => { history := [], loading := false }
    | .ok (.array parsed) => { history := parsed, loading := false }
    | .ok .other => { history := [], loading := false }

/-- Source `clearHistory` (lines 37-44): removes the slot and then empties `history`; when
`removeItem` rejects, the exception is logged and nothing changes. -/
def clearHistory (removeRejects : Bool) (st : Storage) (m : ModalState) :
    ModalState × Storage :=
  match AsyncStorage.removeItem removeRejects st HISTORY_STORAGE_KEY with
  | .error _ => (m, st)
  | .ok st' => ({ m with history := [] }, st')

/-- Source `saveToHistory` (lines 112-139).  Returns the boolean the function resolves to and
the storage afterwards.  `currentHistory.unshift` on a parsed value that is not an array
is a `TypeError`; every exception is caught and gives `false`. -/
def saveToHistory (clock : Clock) (faults : StorageFaults) (st : Storage)
    (original translated language : String) : Bool × Storage :=
  let newItem : HistoryEntry :=
    { id := clock.now, original := original, translated := translated,
      language := language, timestamp := clock.iso }
  match AsyncStorage.getItem faults.getRejects st HISTORY_STORAGE_KEY with
  | .error _ => (false, st)
  | .ok jsonValue =>
    let parsed : Except JsError JsonValue :=
      match jsonValue with
      | some t => JSON.parse t
      | none => .ok (.array [])
    match parsed with
    | .error _ => (false, st)
    | .ok .other => (false, st)
    | .ok (.array currentHistory) =>
      let currentHistory := newItem :: currentHistory
      let currentHistory :=
        if currentHistory.length > 50 then currentHistory.take 50 else currentHistory
      match AsyncStorage.setItem faults.setRejects st HISTORY_STORAGE_KEY
          (JSON.stringify (.array currentHistory)) with
      | .error _ => (false, st)
      | .ok st' => (true, st')

end HistoryModal

/-! ## `services/storage.ts` -/

namespace storage

/-- Source `const HISTORY_KEY = 'linguamedia_history'`. -/
def HISTORY_KEY : String := "linguamedia_history"

/-- Source `const MAX_HISTORY_ITEMS = 50`. -/
def MAX_HISTORY_ITEMS : Nat := 50

/-- Source `getHistory` (lines 43-51): the parsed slot when the stored string is truthy, `[]`
when it is absent or empty, and `[]` when reading or parsing throws.  The parsed value
is returned as it is, array or not. -/
def getHistory (getRejects : Bool) (st : Storage) : JsonValue :=
  match AsyncStorage.getItem getRejects st HISTORY_KEY with
  | .error _ => .array []
  | .ok none => .array []
  | .ok (some historyStr) =>
    if historyStr.truthy then
      match JSON.parse historyStr with
      | .error _ => .array []
      | .ok v => v
    else .array []

/-- Source `saveToHistory` (lines 14-41): `unshift` the new entry, `pop` one entry when the
list is longer than `MAX_HISTORY_ITEMS`, write the list back.  Every exception
(`unshift` on a non-array, a rejected `setItem`) is caught and logged. -/
def saveToHistory (clock : Clock) (faults : StorageFaults) (st : Storage)
    (original translated language : String) : Storage :=
  match getHistory faults.getRejects st with
  | .other => st
  | .array history =>
    let entry : HistoryEntry :=
      { id := clock.now, original := original, translated := translated,
        language := language, timestamp := clock.iso }
    let history := entry :: history
    let history := if history.length > MAX_HISTORY_ITEMS then history.dropLast else history
    match AsyncStorage.setItem faults.setRejects st HISTORY_KEY
        (JSON.stringify (.array history)) with
    | .error _ => st
    | .ok st' => st'

/-- Source `clearHistory` (lines 53-59). -/
def clearHistory (removeRejects : Bool) (st : Storage) : Storage :=
  match AsyncStorage.removeItem removeRejects st HISTORY_KEY with
  | .error _ => st
  | .ok st' => st'

end storage

/-! ## Sequences of store operations -/

/-- One call of the history store's interface, with the clock readings and the platform
faults met by that call. -/
inductive StoreOp where
  | save (clock : Clock) (faults : StorageFaults) (original translated language : String)
  | clear (faults : StorageFaults)
  deriving DecidableEq, Repr

/-- One operation on the store of `components/HistoryModal.js`. -/
def HistoryModal.applyOp (st : Storage) (op : StoreOp) : Storage :=
  match op with
  | .save clock faults o t l => (HistoryModal.saveToHistory clock faults st o t l).2
  | .clear faults => (HistoryModal.clearHistory faults.removeRejects st {}).2

/-- One operation on the store of `services/storage.ts`. -/
def storage.applyOp (st : Storage) (op : StoreOp) : Storage :=
  match op with
  | .save clock faults o t l => storage.saveToHistory clock faults st o t l
  | .clear faults => storage.clearHistory faults.removeRejects st

/-- The arguments of one `saveToHistory` call of `components/HistoryModal.js`. -/
structure SaveCall where
  clock : Clock
  faults : StorageFaults
  original : String
  translated : String
  language : String
  deriving DecidableEq, Repr

/-- The entry a `saveToHistory` call builds. -/
def SaveCall.entry (c : SaveCall) : HistoryEntry :=
  { id := c.clock.now, original := c.original, translated := c.translated,
    language := c.language, timestamp := c.clock.iso }

/-- Sequential `saveToHistory` calls, first call first: whether every call resolved to
`true`, and the storage after the last one. -/
def HistoryModal.saveAll (st : Storage) : List SaveCall → Bool × Storage
  | [] => (true, st)
  | c :: cs =>
    let r := HistoryModal.saveToHistory c.clock c.faults st c.original c.translated c.language
    let r' := HistoryModal.saveAll r.2 cs
    (r.1 && r'.1, r'.2)

/-- Sample input: `n` fault-free calls whose clock readings are `1 .. n`. -/
def sampleCalls (n : Nat) : List SaveCall :=
  (List.range n).map fun i =>
    { clock := ⟨i + 1, "t"⟩, faults := {}, original := "Bom dia",
      translated := "Good morning", language := "Inglês" }

/-- The list `loadHistory` shows for a storage whose read succeeds. -/
def HistoryModal.persisted (st : Storage) : List HistoryEntry :=
  (HistoryModal.loadHistory false st {}).history

/-- The history slot is absent or holds the JSON text of an array. -/
def HistoryModal.WellFormed (st : Storage) : Prop :=
  st HistoryModal.HISTORY_STORAGE_KEY = none ∨
    ∃ H, st HistoryModal.HISTORY_STORAGE_KEY = some (.json (.array H))

/-- A storage whose only key is the history slot of components/HistoryModal.js, holding
the JSON text of the array `H`. -/
def HistoryModal.holding (H : List HistoryEntry) : Storage :=
  fun k => if k = HistoryModal.HISTORY_STORAGE_KEY then some (.json (.array H)) else none

/-- The slot `key` is absent or holds the JSON text of an array of at most `n` entries. -/
def Storage.Bounded (st : Storage) (key : String) (n : Nat) : Prop :=
  st key = none ∨ ∃ H, st key = some (.json (.array H)) ∧ H.length ≤ n

/-! ## `src/services/api.js` -/

/-- The body of a successful `/api/translate` or `/api/translate-audio` response
(`{original_text?, translated_text}`). -/
structure TranslationResponse where
  original_text : Option String
  translated_text : String
  deriving DecidableEq, Repr

/-- The body of a successful `/api/synthesize` response (`{audio_base64}`). -/
structure SynthesisResponse where
  audio_base64 : String
  deriving DecidableEq, Repr

/-- What the HTTP client answers to one request: a 2xx response with its `data`
(`none` when the body is JSON `null`), or a rejection (network error, timeout, non-2xx)
with the axios error message and the backend `detail` if the response carried one. -/
inductive HttpOutcome (α : Type) where
  | ok (data : Option α)
  | failed (axiosMessage : String) (detail : Option String)
  deriving DecidableEq, Repr

/-- Source `translateText` (lines 41-51): a failure is rethrown as
`new Error(error.response?.data?.detail || 'Translation failed')`. -/
def translateText (http : HttpOutcome TranslationResponse) :
    Except JsError (Option TranslationResponse) :=
  match http with
  | .ok data => .ok data
  | .failed _ detail => .error ⟨orElse detail "Translation failed"⟩

/-- Source `synthesizeSpeech` (lines 56-66). -/
def synthesizeSpeech (http : HttpOutcome SynthesisResponse) :
    Except JsError (Option SynthesisResponse) :=
  match http with
  | .ok data => .ok data
  | .failed _ detail => .error ⟨orElse detail "Speech synthesis failed"⟩

/-- Source `translateAudio` (lines 86-110): the axios error is logged and rethrown as it is. -/
def translateAudio (http : HttpOutcome TranslationResponse) :
    Except JsError (Option TranslationResponse) :=
  match http with
  | .ok data => .ok data
  | .failed axiosMessage _ => .error ⟨axiosMessage⟩

/-- The `TypeError` of reading property `field` of `null`; the wording of the message
is the JavaScript engine's. -/
def typeError (field : String) : JsError :=
  ⟨"TypeError: Cannot read property '" ++ field ++ "' of null"⟩

/-! ## `src/services/audio.js` -/

/-- An expo-av `Sound` object, identified by a number. -/
structure Sound where
  id : Nat
  deriving DecidableEq, Repr

/-- What expo-av answers during one `playAudioFromBase64` / `stopAudio` call. -/
structure AudioOutcome where
  stopRejects : Bool := false
  unloadRejects : Bool := false
  modeRejects : Bool := false
  /-- the sound made by `Audio.Sound.createAsync`, `none` when it rejects -/
  created : Option Sound := some ⟨0⟩
  deriving DecidableEq, Repr

/-- Source `playAudioFromBase64` (lines 11-40), on the module variable `currentSound`.  Returns
the sound (or the rethrown error) and the new `currentSound`. -/
def playAudioFromBase64 (o : AudioOutcome) (currentSound : Option Sound) :
    Except JsError Sound × Option Sound :=
  let stopped : Except JsError (Option Sound) :=
    match currentSound with
    | none => .ok none
    | some _ =>
      if o.stopRejects then .error ⟨"stopAsync failed"⟩
      else if o.unloadRejects then .error ⟨"unloadAsync failed"⟩
      else .ok none
  match stopped with
  | .error e => (.error e, currentSound)
  | .ok cur =>
    if o.modeRejects then (.error ⟨"setAudioModeAsync failed"⟩, cur)
    else
      match o.created with
      | none => (.error ⟨"createAsync failed"⟩, cur)
      | some sound => (.ok sound, some sound)

/-! ## `src/hooks/useAppState.js` and `src/screens/HomeScreen.js` -/

/-- Source `AppState` (useAppState.js lines 7-12). -/
inductive AppState where
  | IDLE
  | TRANSLATING
  | PLAYING
  | RECORDING
  deriving DecidableEq, Repr

/-- A call that leaves the controller: a request to the backend, to the history store,
or to expo-av, with its arguments. -/
inductive Call where
  | translateText (text targetLanguage : String)
  | translateAudio (audioUri targetLanguage : String)
  | saveToHistory (original translated language : String)
  | synthesizeSpeech (text : String)
  | playAudioFromBase64 (audioBase64 : String)
  | setAudioModeAsync (allowsRecordingIOS : Bool)
  | createRecording
  | stopAndUnloadAsync
  deriving DecidableEq, Repr

/-- An expo-av `Recording` handle. -/
structure Recording where
  id : Nat
  deriving DecidableEq, Repr

/-- The state seen by `HomeScreen`: the `useState` cells of `useAppState` and of
`HomeScreen`, the module variable `currentSound` of audio.js, the AsyncStorage, and the
log of the calls issued so far (oldest first). -/
structure Screen where
  state : AppState := .IDLE
  targetLanguage : String := "Inglês"
  translatedText : String := ""
  audioBase64 : Option String := none
  snackbarMessage : String := ""
  snackbarVisible : Bool := false
  modalVisible : Bool := false
  historyVisible : Bool := false
  statusText : String := "Tradução instantânea para línguas nacionais moçambicanas"
  recording : Option Recording := none
  currentSound : Option Sound := none
  storage : Storage := Storage.blank
  calls : List Call := []

/-- What the outside world answers during one handler run. -/
structure Outcomes where
  /-- answer to the translation request (`/api/translate` or `/api/translate-audio`) -/
  translation : HttpOutcome TranslationResponse
  /-- answer to `/api/synthesize` -/
  synthesis : HttpOutcome SynthesisResponse
  audio : AudioOutcome := {}
  clock : Clock := ⟨0, ""⟩
  faults : StorageFaults := {}
  /-- whether `Audio.setAudioModeAsync` rejects -/
  modeRejects : Bool := false
  /-- the handle made by `Audio.Recording.createAsync`, `none` when it rejects -/
  createdRecording : Option Recording := some ⟨0⟩
  /-- whether `recording.stopAndUnloadAsync()` rejects -/
  stopRejects : Bool := false
  /-- what `recording.getURI()` returns, `none` for `null` -/
  uri : Option String := none

/-- Appends a call to the log. -/
def Screen.call (s : Screen) (c : Call) : Screen :=
  { s with calls := s.calls ++ [c] }

/-- Source `showSnackbar` (useAppState.js lines 30-33). -/
def showSnackbar (message : String) (s : Screen) : Screen :=
  { s with snackbarMessage := message, snackbarVisible := true }

/-- Source `saveTranslation` (useAppState.js lines 40-42): awaits `saveToHistory` with the
hook's `targetLanguage` and drops its result. -/
def saveTranslation (o : Outcomes) (original translated : String) (s : Screen) : Screen :=
  let s := s.call (.saveToHistory original translated s.targetLanguage)
  { s with storage :=
      (HistoryModal.saveToHistory o.clock o.faults s.storage original translated
        s.targetLanguage).2 }

/-- The `catch` block of `processTranslationResult` (lines 160-164). -/
def ttsCatch (s : Screen) : Screen :=
  { showSnackbar "Erro ao gerar áudio (TTS)" s with state := .IDLE }

/-- Source `processTranslationResult` (lines 137-165).  The result is `.error` when an
exception leaves the function. -/
def processTranslationResult (o : Outcomes) (result : Option TranslationResponse)
    (s : Screen) : Except JsError Unit × Screen :=
  match result with
  | none => (.error (typeError "translated_text"), s)
  | some result =>
    let s := { s with translatedText := result.translated_text,
                      statusText := "Tradução: " ++ result.translated_text }
    let s := saveTranslation o (orElse result.original_text "Áudio") result.translated_text s
    let s := { s with statusText := "Gerando áudio..." }
    let s := s.call (.synthesizeSpeech result.translated_text)
    match synthesizeSpeech o.synthesis with
    | .error _ => (.ok (), ttsCatch s)
    | .ok none => (.ok (), ttsCatch s)
    | .ok (some audioResult) =>
      let s := { s with audioBase64 := some audioResult.audio_base64, state := .PLAYING }
      let s := s.call (.playAudioFromBase64 audioResult.audio_base64)
      match playAudioFromBase64 o.audio s.currentSound with
      | (.error _, cur) => (.ok (), ttsCatch { s with currentSound := cur })
      | (.ok _, cur) =>
        (.ok (), showSnackbar "Tradução concluída!"
          { s with currentSound := cur,
                   statusText := "✓ Tradução: " ++ result.translated_text })

/-- Source `handleTextTranslate` (lines 121-135). -/
def handleTextTranslate (o : Outcomes) (text : String) (s : Screen) : Screen :=
  let s := { s with modalVisible := false, state := .TRANSLATING,
                    statusText := "Traduzindo texto..." }
  let s := s.call (.translateText text s.targetLanguage)
  let caught (error : JsError) (s : Screen) : Screen :=
    { showSnackbar ("Erro: " ++ error.message) s with
        statusText := "Erro na tradução. Tente novamente.", state := .IDLE }
  match translateText o.translation with
  | .error error => caught error s
  | .ok result =>
    match processTranslationResult o result s with
    | (.error error, s) => caught error s
    | (.ok _, s) => s

/-- Source `handleAudioTranslation` (lines 99-111). -/
def handleAudioTranslation (o : Outcomes) (audioUri : String) (s : Screen) : Screen :=
  let s := { s with statusText := "Traduzindo áudio..." }
  let s := s.call (.translateAudio audioUri s.targetLanguage)
  let caught (s : Screen) : Screen :=
    { showSnackbar "Erro na tradução de áudio" s with
        statusText := "Erro. Tente novamente.", state := .IDLE }
  match translateAudio o.translation with
  | .error _ => caught s
  | .ok result =>
    match processTranslationResult o result s with
    | (.error _, s) => caught s
    | (.ok _, s) => s

/-- Source `startRecording` (lines 52-70). -/
def startRecording (o : Outcomes) (s : Screen) : Screen :=
  let s := s.call (.setAudioModeAsync true)
  if o.modeRejects then showSnackbar "Erro ao iniciar gravação" s
  else
    let s := s.call .createRecording
    match o.createdRecording with
    | none => showSnackbar "Erro ao iniciar gravação" s
    | some recording =>
      { s with recording := some recording, state := .RECORDING, statusText := "Ouvindo..." }

/-- Source `stopRecording` (lines 72-97). -/
def stopRecording (o : Outcomes) (s : Screen) : Screen :=
  match s.recording with
  | none => s
  | some _ =>
    let s := { s with state := .TRANSLATING, statusText := "Processando áudio..." }
    let caught (s : Screen) : Screen :=
      { showSnackbar "Erro ao parar gravação" s with state := .IDLE }
    let s := s.call .stopAndUnloadAsync
    if o.stopRejects then caught s
    else
      let uri := o.uri
      let s := { s with recording := none }
      let s := s.call (.setAudioModeAsync false)
      if o.modeRejects then caught s
      else
        match uri with
        | none => s
        | some u => if u = "" then s else handleAudioTranslation o u s

/-- Source `handleMicPress` (lines 113-119). -/
def handleMicPress (o : Outcomes) (s : Screen) : Screen :=
  if s.state = .IDLE then startRecording o s
  else if s.state = .RECORDING then stopRecording o s
  else s

/-- The playback status callback passed to `playAudioFromBase64` (lines 152-156). -/
def onPlaybackStatusUpdate (didJustFinish : Bool) (s : Screen) : Screen :=
  if didJustFinish then { s with state := .IDLE } else s

/-- The calls a handler run added to the log. -/
def issued (before after : Screen) : List Call :=
  after.calls.drop before.calls.length

/-- Source `handlePlayAudio` (lines 167-185). -/
def handlePlayAudio (o : Outcomes) (s : Screen) : Screen :=
  let unavailable (s : Screen) : Screen := showSnackbar "Nenhum áudio disponível" s
  match s.audioBase64 with
  | none => unavailable s
  | some audioBase64 =>
    if audioBase64 = "" then unavailable s
    else
      let s := { s with state := .PLAYING }
      let s := s.call (.playAudioFromBase64 audioBase64)
      match playAudioFromBase64 o.audio s.currentSound with
      | (.error _, cur) =>
        { showSnackbar "Erro ao reproduzir áudio" { s with currentSound := cur } with
            state := .IDLE }
      | (.ok _, cur) => { s with currentSound := cur }

/-! ### The text pipeline between its awaits -/

/-- The part of `handleTextTranslate` before `translateText` resolves (lines 122-127):
the modal is closed, the status is set and the request is issued. -/
def stageSubmitted (text : String) (s : Screen) : Screen :=
  let s := { s with modalVisible := false, state := .TRANSLATING,
                    statusText := "Traduzindo texto..." }
  s.call (.translateText text s.targetLanguage)

/-- From the resolved translation to the `synthesizeSpeech` request
(`processTranslationResult` lines 138-147): the text is shown, the history is saved and
the synthesis request is issued. -/
def stageTranslated (o : Outcomes) (result : TranslationResponse) (s : Screen) : Screen :=
  let s := { s with translatedText := result.translated_text,
                    statusText := "Tradução: " ++ result.translated_text }
  let s := saveTranslation o (orElse result.original_text "Áudio") result.translated_text s
  let s := { s with statusText := "Gerando áudio..." }
  s.call (.synthesizeSpeech result.translated_text)

/-- From the resolved synthesis to the `playAudioFromBase64` call (lines 148-152): the
payload is cached, the status is set and the playback is requested. -/
def stageSynthesized (audioResult : SynthesisResponse) (s : Screen) : Screen :=
  let s := { s with audioBase64 := some audioResult.audio_base64, state := .PLAYING }
  s.call (.playAudioFromBase64 audioResult.audio_base64)

/-- After `playAudioFromBase64` resolved with a sound (lines 158-159); `cur` is the
`currentSound` it left. -/
def stagePlaying (result : TranslationResponse) (cur : Option Sound) (s : Screen) : Screen :=
  showSnackbar "Tradução concluída!"
    { s with currentSound := cur, statusText := "✓ Tradução: " ++ result.translated_text }

/-! ## `src/components/TextInputModal.js` -/

/-- The code points `String.prototype.trim` strips: ECMAScript WhiteSpace (TAB, VT, FF,
SP, NBSP, ZWNBSP and the Unicode space separators) and LineTerminator (LF, CR, LS, PS). -/
def isJsWhiteSpace (c : Char) : Bool :=
  c.val.toNat ∈ [0x09, 0x0A, 0x0B, 0x0C, 0x0D, 0x20, 0xA0, 0x1680, 0x2028, 0x2029, 0x202F,
    0x205F, 0x3000, 0xFEFF] || (0x2000 ≤ c.val.toNat && c.val.toNat ≤ 0x200A)

/-- The method `String.prototype.trim`. -/
def jsTrim (s : String) : String :=
  ⟨((s.data.dropWhile isJsWhiteSpace).reverse.dropWhile isJsWhiteSpace).reverse⟩

namespace TextInputModal

/-- Source `handleSubmit` (lines 21-26) on the component state `text`: the argument
`onSubmit` is invoked with (`none` when it is not invoked) and the new `text`. -/
def handleSubmit (text : String) : Option String × String :=
  if jsTrim text ≠ "" then (some (jsTrim text), "") else (none, text)

end TextInputModal

/-- The submit button of the modal as `HomeScreen` wires it
(`onSubmit={handleTextTranslate}`, line 244): the modal's new `text` and the screen. -/
def submitTextModal (o : Outcomes) (text : String) (s : Screen) : String × Screen :=
  match TextInputModal.handleSubmit text with
  | (some submitted, text') => (text', handleTextTranslate o submitted s)
  | (none, text') => (text', s)

/-! ## `App.tsx` with `services/api.ts` and `services/speech.ts` -/

namespace AppTsx

/-- Source `TranslationRequest` of services/api.ts. -/
structure TranslationRequest where
  text : String
  target_language : String
  deriving DecidableEq, Repr

/-- The body of a successful response, `TranslationResponse` of services/api.ts. -/
structure TranslationResponse where
  original : String
  translated : String
  language : String
  deriving DecidableEq, Repr

/-- Source `translateText` of services/api.ts (lines 17-37), for an axios failure. -/
def translateText (http : HttpOutcome TranslationResponse) :
    Except JsError (Option TranslationResponse) :=
  match http with
  | .ok data => .ok data
  | .failed _ detail => .error ⟨orElse detail "Translation failed"⟩

/-- Source `speak` of services/speech.ts (lines 42-55). -/
def speak (speakRejects : Bool) : Except JsError Unit :=
  if speakRejects then .error ⟨"Erro ao reproduzir áudio"⟩ else .ok ()

/-- The `useState` cells of `App` (lines 23-31), the `Alert.alert(title, message)` calls
and the `translateText` requests made so far (oldest first), and the AsyncStorage. -/
structure State where
  targetLanguage : String := "English"
  originalText : String := ""
  translatedText : String := ""
  isTranslating : Bool := false
  showTextModal : Bool := false
  showHistoryModal : Bool := false
  textInput : String := ""
  history : JsonValue := .array []
  showTranslation : Bool := false
  alerts : List (String × String) := []
  requests : List TranslationRequest := []
  spoken : List (String × String) := []
  storage : Storage := Storage.blank

/-- What the outside world answers during one `handleTranslate` run. -/
structure Answers where
  translation : HttpOutcome TranslationResponse
  clock : Clock := ⟨0, ""⟩
  faults : StorageFaults := {}
  /-- whether the `getItem` of the `loadHistory` after the save rejects -/
  reloadRejects : Bool := false
  speakRejects : Bool := false

/-- Source `handleTranslate` (lines 42-72). -/
def handleTranslate (a : Answers) (text : String) (s : State) : State :=
  if jsTrim text = "" then
    { s with alerts := s.alerts ++ [("Erro", "Por favor, digite algum texto")] }
  else
    let s := { s with isTranslating := true, showTranslation := false }
    let s := { s with requests := s.requests ++ [⟨jsTrim text, s.targetLanguage⟩] }
    let caught (error : JsError) (s : State) : State :=
      { s with alerts := s.alerts ++ [("Erro", error.message)], isTranslating := false }
    match translateText a.translation with
    | .error error => caught error s
    | .ok none => caught (typeError "original") s
    | .ok (some result) =>
      let s := { s with originalText := result.original, translatedText := result.translated,
                        showTranslation := true }
      let s := { s with storage :=
        (storage.saveToHistory a.clock a.faults s.storage result.original result.translated
          result.language) }
      let s := { s with history := storage.getHistory a.reloadRejects s.storage }
      let s := { s with spoken := s.spoken ++ [(result.translated, s.targetLanguage)] }
      match speak a.speakRejects with
      | .error error => caught error s
      | .ok _ => { s with isTranslating := false }

/-- Source `handleTextSubmit` (lines 74-78). -/
def handleTextSubmit (a : Answers) (s : State) : State :=
  let s := { s with showTextModal := false }
  let s := handleTranslate a s.textInput s
  { s with textInput := "" }

end AppTsx

/-- A storage whose only key is the history slot of services/storage.ts, holding the
JSON text of the value `v`. -/
def storage.holding (v : JsonValue) : Storage :=
  fun k => if k = storage.HISTORY_KEY then some (.json v) else none

/-! ## Health probes: `src/services/api.js` and `services/api.ts` -/

/-- The body of a `/health` response (`{status}`). -/
structure HealthResponse where
  status : Option String
  deriving DecidableEq, Repr

/-- Source `healthCheck` of src/services/api.js (lines 71-78): the response data, or
`new Error('Backend is not available')` thrown from the `catch`. -/
def healthCheck (http : HttpOutcome HealthResponse) :
    Except JsError (Option HealthResponse) :=
  match http with
  | .ok data => .ok data
  | .failed _ _ => .error ⟨"Backend is not available"⟩

/-- Source `checkHealth` of services/api.ts (lines 39-46): the `try` body compares
`response.data.status` with `'ok'`; the `catch` turns every exception into `false`. -/
def AppTsx.checkHealth (http : HttpOutcome HealthResponse) : Except JsError Bool :=
  let body : Except JsError Bool :=
    match http with
    | .failed axiosMessage _ => .error ⟨axiosMessage⟩
    | .ok none => .error (typeError "status")
    | .ok (some data) => .ok (decide (data.status = some "ok"))
  match body with
  | .ok b => .ok b
  | .error _ => .ok false

/-! ## Target language: `useAppState.js` and `constants/config.js` -/

/-- Source `APP_CONSTANTS.DEFAULT_LANGUAGE` (config.js line 24). -/
def APP_CONSTANTS.DEFAULT_LANGUAGE : String := "Inglês"

/-- Source `APP_CONSTANTS.LANGUAGES` (config.js line 25). -/
def APP_CONSTANTS.LANGUAGES : List String := ["Inglês", "Changana"]

/-- Source `toggleLanguage` (useAppState.js lines 24-28). -/
def toggleLanguage (s : Screen) : Screen :=
  let newLang := if s.targetLanguage = "Inglês" then "Changana" else "Inglês"
  showSnackbar ("Língua alterada para " ++ newLang) { s with targetLanguage := newLang }

/-! ## `src/services/audio.js` with the log of its expo-av calls -/

/-- A call from audio.js to expo-av. -/
inductive AudioCall where
  | stopAsync (sound : Sound)
  | unloadAsync (sound : Sound)
  | setAudioModeAsync
  | createAsync (uri : String)
  deriving DecidableEq, Repr

/-- The module state of audio.js: the variable `currentSound` (line 6), and the expo-av
calls made so far (oldest first). -/
structure AudioAdapter where
  currentSound : Option Sound := none
  log : List AudioCall := []
  deriving DecidableEq, Repr

/-- Appends a call to the adapter's log. -/
def AudioAdapter.call (a : AudioAdapter) (c : AudioCall) : AudioAdapter :=
  { a with log := a.log ++ [c] }

namespace audio

/-- Source `playAudioFromBase64` (lines 11-40) with its expo-av calls logged: the
returned sound, or the error rethrown by the `catch`, and the adapter afterwards. -/
def playAudioFromBase64 (o : AudioOutcome) (audioBase64 : String) (a : AudioAdapter) :
    Except JsError Sound × AudioAdapter :=
  let stopped : Option JsError × AudioAdapter :=
    match a.currentSound with
    | none => (none, a)
    | some sound =>
      let a := a.call (.stopAsync sound)
      if o.stopRejects then (some ⟨"stopAsync failed"⟩, a)
      else
        let a := a.call (.unloadAsync sound)
        if o.unloadRejects then (some ⟨"unloadAsync failed"⟩, a)
        else (none, { a with currentSound := none })
  match stopped with
  | (some error, a) => (.error error, a)
  | (none, a) =>
    let a := a.call .setAudioModeAsync
    if o.modeRejects then (.error ⟨"setAudioModeAsync failed"⟩, a)
    else
      let a := a.call (.createAsync ("data:audio/wav;base64," ++ audioBase64))
      match o.created with
      | none => (.error ⟨"createAsync failed"⟩, a)
      | some sound => (.ok sound, { a with currentSound := some sound })

/-- Source `stopAudio` (lines 45-55): the adapter afterwards; an exception of
`stopAsync` or `unloadAsync` is caught and logged. -/
def stopAudio (o : AudioOutcome) (a : AudioAdapter) : AudioAdapter :=
  match a.currentSound with
  | none => a
  | some sound =>
    let a := a.call (.stopAsync sound)
    if o.stopRejects then a
    else
      let a := a.call (.unloadAsync sound)
      if o.unloadRejects then a
      else { a with currentSound := none }

/-- Source `getCurrentSound` (line 60). -/
def getCurrentSound (a : AudioAdapter) : Option Sound := a.currentSound

end audio

/-! ## Lemmas on the history store -/

theorem take_append_take {α : Type} (n : Nat) (a b : List α) :
    (a ++ b.take n).take n = (a ++ b).take n := by
  rw [List.take_append_eq_append_take, List.take_append_eq_append_take, List.take_take]
  congr 2
  omega

theorem HistoryModal.loadHistory_history_eq (b : Bool) (st : Storage) (m m' : ModalState) :
    (loadHistory b st m).history = (loadHistory b st m').history := rfl

theorem HistoryModal.persisted_of_array (st : Storage) (H : List HistoryEntry)
    (h : st HISTORY_STORAGE_KEY = some (.json (.array H))) : persisted st = H := by
  simp [persisted, loadHistory, AsyncStorage.getItem, h, JSON.parse]

theorem HistoryModal.persisted_of_absent (st : Storage)
    (h : st HISTORY_STORAGE_KEY = none) : persisted st = [] := by
  simp [persisted, loadHistory, AsyncStorage.getItem, h]

/-- A `saveToHistory` that resolves to `true` found the slot absent or holding an array,
and wrote the first 50 elements of the new entry followed by the former list. -/
theorem HistoryModal.saveToHistory_true (clock : Clock) (faults : StorageFaults)
    (st : Storage) (o t l : String)
    (hok : (saveToHistory clock faults st o t l).1 = true) :
    WellFormed st ∧
    (saveToHistory clock faults st o t l).2 HISTORY_STORAGE_KEY =
      some (.json (.array
        ((({ id := clock.now, original := o, translated := t, language := l,
             timestamp := clock.iso } : HistoryEntry) :: persisted st).take 50))) := by
  unfold saveToHistory at hok ⊢
  cases hg : faults.getRejects <;> cases hs : faults.setRejects <;>
    simp [AsyncStorage.getItem, AsyncStorage.setItem, hg, hs] at hok ⊢
  all_goals
    rcases hst : st HISTORY_STORAGE_KEY with _ | (_ | _ | (H | _)) <;>
      simp [hst, JSON.parse, JSON.stringify, AsyncStorage.setItem] at hok ⊢
  · exact ⟨Or.inl hst, persisted_of_absent st hst⟩
  · refine ⟨Or.inr ⟨H, hst⟩, ?_⟩
    rw [persisted_of_array st H hst]
    split
    · rfl
    · rw [List.take_of_length_le (by omega)]

/-- Without platform faults, `saveToHistory` on a well-formed slot resolves to `true`. -/
theorem HistoryModal.saveToHistory_succeeds (clock : Clock) (faults : StorageFaults)
    (st : Storage) (o t l : String) (hwf : WellFormed st)
    (hg : faults.getRejects = false) (hs : faults.setRejects = false) :
    (saveToHistory clock faults st o t l).1 = true := by
  unfold saveToHistory
  rcases hwf with h | ⟨H, h⟩ <;>
    simp [AsyncStorage.getItem, AsyncStorage.setItem, hg, hs, h, JSON.parse]

/-- A `saveToHistory` that resolves to `false` leaves the storage as it was. -/
theorem HistoryModal.saveToHistory_false (clock : Clock) (faults : StorageFaults)
    (st : Storage) (o t l : String)
    (hno : (saveToHistory clock faults st o t l).1 = false) :
    (saveToHistory clock faults st o t l).2 = st := by
  unfold saveToHistory at hno ⊢
  cases hg : faults.getRejects <;> cases hs : faults.setRejects <;>
    simp [AsyncStorage.getItem, AsyncStorage.setItem, hg, hs] at hno ⊢
  all_goals
    rcases hst : st HISTORY_STORAGE_KEY with _ | (_ | _ | (H | _)) <;>
      simp [hst, JSON.parse, JSON.stringify, AsyncStorage.setItem] at hno ⊢

/-- The function `saveToHistory` writes no key other than its own. -/
theorem HistoryModal.saveToHistory_frame (clock : Clock) (faults : StorageFaults)
    (st : Storage) (o t l : String) (k : String) (hk : k ≠ HISTORY_STORAGE_KEY) :
    (saveToHistory clock faults st o t l).2 k = st k := by
  unfold saveToHistory
  cases hg : faults.getRejects <;> cases hs : faults.setRejects <;>
    simp [AsyncStorage.getItem, AsyncStorage.setItem, hg, hs]
  all_goals
    rcases hst : st HISTORY_STORAGE_KEY with _ | (_ | _ | (H | _)) <;>
      simp [hst, JSON.parse, JSON.stringify, AsyncStorage.setItem, hk]


/-! ## The history store: claims C3 to C6 -/

/-- C3. After a `saveToHistory(original, translated, language)` of
components/HistoryModal.js that succeeded (resolved to `true`, which it does only on a
slot that is absent or holds a well-formed array, `saveToHistory_true`), a `loadHistory`
whose read of the slot is not rejected yields a list whose first element carries exactly
that original, translated and language. -/
theorem C3_save_then_load_yields_new_entry_first (clock : Clock) (faults : StorageFaults)
    (st : Storage) (original translated language : String) (m : HistoryModal.ModalState)
    (hok : (HistoryModal.saveToHistory clock faults st original translated language).1 = true) :
    ∃ e rest,
      (HistoryModal.loadHistory false
        (HistoryModal.saveToHistory clock faults st original translated language).2 m).history
          = e :: rest ∧
      e.original = original ∧ e.translated = translated ∧ e.language = language := by
  have h := (HistoryModal.saveToHistory_true clock faults st original translated language hok).2
  rw [HistoryModal.loadHistory_history_eq _ _ m {}]
  have hp := HistoryModal.persisted_of_array _ _ h
  unfold HistoryModal.persisted at hp
  rw [hp]
  exact ⟨_, (HistoryModal.persisted st).take 49, rfl, rfl, rfl, rfl⟩

/-- C3 at a slot that holds one earlier entry. -/
theorem C3_save_then_load_yields_new_entry_first_witness :
    (HistoryModal.saveToHistory ⟨7, "t7"⟩ {}
        (HistoryModal.holding [⟨3, "Olá", "Hello", "Inglês", "t3"⟩])
        "Bom dia" "Good morning" "Inglês").1 = true ∧
    ∃ e rest,
      (HistoryModal.loadHistory false
        (HistoryModal.saveToHistory ⟨7, "t7"⟩ {}
          (HistoryModal.holding [⟨3, "Olá", "Hello", "Inglês", "t3"⟩])
          "Bom dia" "Good morning" "Inglês").2 {}).history = e :: rest ∧
      e.original = "Bom dia" ∧ e.translated = "Good morning" ∧ e.language = "Inglês" :=
  ⟨by decide,
   C3_save_then_load_yields_new_entry_first ⟨7, "t7"⟩ {}
    (HistoryModal.holding [⟨3, "Olá", "Hello", "Inglês", "t3"⟩]) "Bom dia"
    "Good morning" "Inglês" {} (by decide)⟩

/-- C4. For every persisted array `H`, a `saveToHistory` of components/HistoryModal.js
that meets no storage fault resolves to `true` and persists exactly the first 50
elements of `newEntry :: H`: the new entry, then the first 49 former entries in their
former order; no other key is written. -/
theorem C4_save_persists_first_50_of_cons (clock : Clock) (faults : StorageFaults)
    (st : Storage) (H : List HistoryEntry) (original translated language : String)
    (hH : st HistoryModal.HISTORY_STORAGE_KEY = some (.json (.array H)))
    (hg : faults.getRejects = false) (hs : faults.setRejects = false) :
    let newEntry : HistoryEntry :=
      { id := clock.now, original := original, translated := translated,
        language := language, timestamp := clock.iso }
    let r := HistoryModal.saveToHistory clock faults st original translated language
    r.1 = true ∧
    r.2 HistoryModal.HISTORY_STORAGE_KEY = some (.json (.array ((newEntry :: H).take 50))) ∧
    (newEntry :: H).take 50 = newEntry :: H.take 49 ∧
    (∀ i, i < 49 → (H.take 49)[i]? = H[i]?) ∧
    (∀ k, k ≠ HistoryModal.HISTORY_STORAGE_KEY → r.2 k = st k) := by
  intro newEntry r
  have hok : r.1 = true :=
    HistoryModal.saveToHistory_succeeds clock faults st original translated language
      (Or.inr ⟨H, hH⟩) hg hs
  have h := (HistoryModal.saveToHistory_true clock faults st original translated language hok).2
  rw [HistoryModal.persisted_of_array st H hH] at h
  refine ⟨hok, h, rfl, ?_, ?_⟩
  · intro i hi
    rw [List.getElem?_take_of_lt hi]
  · intro k hk
    exact HistoryModal.saveToHistory_frame clock faults st original translated language k hk



/-- C4 at a slot that holds one earlier entry. -/
theorem C4_save_persists_first_50_of_cons_witness :
    (HistoryModal.saveToHistory ⟨7, "t7"⟩ {}
        (HistoryModal.holding [⟨3, "Olá", "Hello", "Inglês", "t3"⟩])
        "Bom dia" "Good morning" "Inglês").2 HistoryModal.HISTORY_STORAGE_KEY
      = some (.json (.array
          [⟨7, "Bom dia", "Good morning", "Inglês", "t7"⟩, ⟨3, "Olá", "Hello", "Inglês", "t3"⟩])) :=
  (C4_save_persists_first_50_of_cons ⟨7, "t7"⟩ {}
    (HistoryModal.holding [⟨3, "Olá", "Hello", "Inglês", "t3"⟩])
    [⟨3, "Olá", "Hello", "Inglês", "t3"⟩] "Bom dia" "Good morning" "Inglês"
    (by decide) rfl rfl).2.1

/-! ### Reachable stores -/

theorem HistoryModal.saveToHistory_bounded (clock : Clock) (faults : StorageFaults)
    (st : Storage) (o t l : String) (h : st.Bounded HISTORY_STORAGE_KEY 50) :
    (saveToHistory clock faults st o t l).2.Bounded HISTORY_STORAGE_KEY 50 := by
  cases hr : (saveToHistory clock faults st o t l).1
  · rw [saveToHistory_false clock faults st o t l hr]; exact h
  · refine Or.inr ⟨_, (saveToHistory_true clock faults st o t l hr).2, ?_⟩
    rw [List.length_take]
    exact Nat.min_le_left _ _

theorem HistoryModal.clearHistory_bounded (b : Bool) (st : Storage) (m : ModalState)
    (h : st.Bounded HISTORY_STORAGE_KEY 50) :
    (clearHistory b st m).2.Bounded HISTORY_STORAGE_KEY 50 := by
  cases b
  · left; simp [clearHistory, AsyncStorage.removeItem]
  · simpa [clearHistory, AsyncStorage.removeItem] using h

theorem storage.getHistory_of_bounded (b : Bool) (st : Storage)
    (h : st.Bounded HISTORY_KEY 50) :
    ∃ H, getHistory b st = .array H ∧ H.length ≤ 50 ∧
      (b = false → st HISTORY_KEY = some (.json (.array H)) ∨
        (st HISTORY_KEY = none ∧ H = [])) := by
  cases b
  · rcases h with h | ⟨H, h, hl⟩
    · exact ⟨[], by simp [getHistory, AsyncStorage.getItem, h], by simp, fun _ => Or.inr ⟨h, rfl⟩⟩
    · exact ⟨H, by simp [getHistory, AsyncStorage.getItem, h, JSON.parse, StoredText.truthy],
        hl, fun _ => Or.inl h⟩
  · exact ⟨[], by simp [getHistory, AsyncStorage.getItem], by simp, by simp⟩

theorem storage.save_keeps_bound (clock : Clock) (faults : StorageFaults)
    (st : Storage) (o t l : String) (h : st.Bounded HISTORY_KEY 50) :
    (saveToHistory clock faults st o t l).Bounded HISTORY_KEY 50 := by
  obtain ⟨H, hH, hl, -⟩ := getHistory_of_bounded faults.getRejects st h
  unfold saveToHistory
  rw [hH]
  cases hs : faults.setRejects
  · right
    simp only [AsyncStorage.setItem, JSON.stringify, MAX_HISTORY_ITEMS]
    refine ⟨_, by simp; rfl, ?_⟩
    split
    · simp; omega
    · simp at *; omega
  · simpa [AsyncStorage.setItem] using h

theorem storage.clear_keeps_bound (b : Bool) (st : Storage)
    (h : st.Bounded HISTORY_KEY 50) : (clearHistory b st).Bounded HISTORY_KEY 50 := by
  cases b
  · left; simp [clearHistory, AsyncStorage.removeItem]
  · simpa [clearHistory, AsyncStorage.removeItem] using h

theorem HistoryModal.foldl_applyOp_bounded (ops : List StoreOp) (st : Storage)
    (h : st.Bounded HISTORY_STORAGE_KEY 50) :
    (ops.foldl applyOp st).Bounded HISTORY_STORAGE_KEY 50 := by
  induction ops generalizing st with
  | nil => exact h
  | cons op ops ih =>
    apply ih
    cases op with
    | save clock faults o t l => exact saveToHistory_bounded clock faults st o t l h
    | clear faults => exact clearHistory_bounded _ st {} h

theorem storage.ops_keep_bound (ops : List StoreOp) (st : Storage)
    (h : st.Bounded HISTORY_KEY 50) :
    (ops.foldl applyOp st).Bounded HISTORY_KEY 50 := by
  induction ops generalizing st with
  | nil => exact h
  | cons op ops ih =>
    apply ih
    cases op with
    | save clock faults o t l => exact save_keeps_bound clock faults st o t l h
    | clear faults => exact clear_keeps_bound _ st h

/-- C5. In every store state reached from an empty storage by a finite sequence of
`saveToHistory` and `clearHistory` calls (each under any clock reading and any storage
fault), the persisted history has at most 50 entries: the slot is absent or holds an
array of at most 50 entries, and the list read back (`loadHistory`, `getHistory`) has at
most 50 entries.  This holds for components/HistoryModal.js and for services/storage.ts. -/
theorem C5_reachable_history_at_most_50 (ops : List StoreOp) :
    ((ops.foldl HistoryModal.applyOp Storage.blank).Bounded
        HistoryModal.HISTORY_STORAGE_KEY 50 ∧
      (HistoryModal.persisted (ops.foldl HistoryModal.applyOp Storage.blank)).length ≤ 50) ∧
    ((ops.foldl storage.applyOp Storage.blank).Bounded storage.HISTORY_KEY 50 ∧
      ∃ H, storage.getHistory false (ops.foldl storage.applyOp Storage.blank) = .array H ∧
        H.length ≤ 50) := by
  have h1 := HistoryModal.foldl_applyOp_bounded ops Storage.blank (Or.inl rfl)
  have h2 := storage.ops_keep_bound ops Storage.blank (Or.inl rfl)
  refine ⟨⟨h1, ?_⟩, h2, ?_⟩
  · rcases h1 with h | ⟨H, h, hl⟩
    · rw [HistoryModal.persisted_of_absent _ h]; simp
    · rw [HistoryModal.persisted_of_array _ _ h]; exact hl
  · obtain ⟨H, hH, hl, -⟩ := storage.getHistory_of_bounded false _ h2
    exact ⟨H, hH, hl⟩

/-! ### Sequential appends -/

theorem HistoryModal.persisted_saveToHistory (clock : Clock) (faults : StorageFaults)
    (st : Storage) (o t l : String)
    (hok : (saveToHistory clock faults st o t l).1 = true) :
    persisted (saveToHistory clock faults st o t l).2 =
      (({ id := clock.now, original := o, translated := t, language := l,
          timestamp := clock.iso } : HistoryEntry) :: persisted st).take 50 :=
  persisted_of_array _ _ (saveToHistory_true clock faults st o t l hok).2

theorem HistoryModal.persisted_saveAll (cs : List SaveCall) (st : Storage)
    (hok : (saveAll st cs).1 = true) :
    persisted (saveAll st cs).2 =
      ((cs.map SaveCall.entry).reverse ++ persisted st).take 50 ∨
    (cs = [] ∧ (saveAll st cs).2 = st) := by
  induction cs generalizing st with
  | nil => right; exact ⟨rfl, rfl⟩
  | cons c cs ih =>
    left
    simp only [saveAll, Bool.and_eq_true] at hok ⊢
    obtain ⟨h1, h2⟩ := hok
    have hp := persisted_saveToHistory c.clock c.faults st c.original c.translated c.language h1
    rcases ih _ h2 with h | ⟨rfl, h⟩
    · rw [h, hp, take_append_take]
      simp [SaveCall.entry]
    · simp only [saveAll] at hp ⊢
      rw [hp]
      simp [SaveCall.entry]

/-- C6. Starting from an empty store, after `n` sequential successful `saveToHistory`
calls of components/HistoryModal.js building the entries `e1 .. en`, the persisted list
is the most recent `min n 50` entries, most recent first (`en` first), and its length is
exactly `min n 50`; after 51 appends the length is exactly 50 and the list is
`e51 .. e2`, so `e1` is not in it when the entries are distinct. -/
theorem C6_sequential_appends_keep_most_recent_50 (cs : List SaveCall)
    (hok : (HistoryModal.saveAll Storage.blank cs).1 = true) :
    let es := cs.map SaveCall.entry
    let list := HistoryModal.persisted (HistoryModal.saveAll Storage.blank cs).2
    list = es.reverse.take 50 ∧
    list.length = min cs.length 50 ∧
    (cs.length = 51 →
      list.length = 50 ∧ list = es.tail.reverse ∧
      ∀ e1, es.head? = some e1 → e1 ∉ es.tail → e1 ∉ list) := by
  intro es list
  have hlist : list = es.reverse.take 50 := by
    rcases HistoryModal.persisted_saveAll cs Storage.blank hok with h | ⟨rfl, h⟩
    · simpa [HistoryModal.persisted_of_absent Storage.blank rfl] using h
    · simp only [list, es, h]
      rfl
  have hlen : list.length = min cs.length 50 := by
    rw [hlist]
    simp [es, Nat.min_comm]
  refine ⟨hlist, hlen, ?_⟩
  intro h51
  have htail : list = es.tail.reverse := by
    rw [hlist]
    have hes : es.length = 51 := by simp [es, h51]
    match hm : es with
    | [] => simp at hes
    | e :: rest =>
      simp only [List.length_cons] at hes
      simp only [List.reverse_cons, List.tail_cons]
      rw [List.take_append_of_le_length (by simp; omega)]
      exact List.take_of_length_le (by simp; omega)
  refine ⟨by rw [hlen, h51]; rfl, htail, ?_⟩
  intro e1 _ hnot
  rw [htail]
  simpa using hnot

/-- C6 at 51 appends with clock readings 1 to 51: the list has 50 entries and the first
appended entry is gone. -/
theorem C6_sequential_appends_keep_most_recent_50_witness :
    (HistoryModal.saveAll Storage.blank (sampleCalls 51)).1 = true ∧
    (HistoryModal.persisted (HistoryModal.saveAll Storage.blank (sampleCalls 51)).2).length
      = 50 ∧
    (⟨1, "Bom dia", "Good morning", "Inglês", "t"⟩ : HistoryEntry) ∉
      HistoryModal.persisted (HistoryModal.saveAll Storage.blank (sampleCalls 51)).2 :=
  ⟨by decide,
   ((C6_sequential_appends_keep_most_recent_50 (sampleCalls 51) (by decide)).2.2
      (by decide)).1,
   ((C6_sequential_appends_keep_most_recent_50 (sampleCalls 51) (by decide)).2.2
      (by decide)).2.2 _ (by decide) (by decide)⟩

/-! ## The controller: call log lemmas -/

theorem issued_append (s s' : Screen) (extra : List Call)
    (h : s'.calls = s.calls ++ extra) : issued s s' = extra := by
  simp [issued, h]

theorem processTranslationResult_calls (o : Outcomes) (r : Option TranslationResponse)
    (s : Screen) :
    ∃ extra, (processTranslationResult o r s).2.calls = s.calls ++ extra ∧
      Call.createRecording ∉ extra ∧
      ∀ text lang, Call.translateText text lang ∉ extra := by
  unfold processTranslationResult
  cases r with
  | none => exact ⟨[], by simp⟩
  | some r =>
    cases hs : synthesizeSpeech o.synthesis with
    | error e =>
      exact ⟨[.saveToHistory (orElse r.original_text "Áudio") r.translated_text s.targetLanguage,
        .synthesizeSpeech r.translated_text],
        by simp [saveTranslation, Screen.call, ttsCatch, showSnackbar]⟩
    | ok a =>
      cases a with
      | none =>
        exact ⟨[.saveToHistory (orElse r.original_text "Áudio") r.translated_text
          s.targetLanguage, .synthesizeSpeech r.translated_text],
          by simp [saveTranslation, Screen.call, ttsCatch, showSnackbar]⟩
      | some a =>
        refine ⟨[.saveToHistory (orElse r.original_text "Áudio") r.translated_text
          s.targetLanguage, .synthesizeSpeech r.translated_text,
          .playAudioFromBase64 a.audio_base64], ?_⟩
        simp only [saveTranslation, Screen.call]
        rcases hp : playAudioFromBase64 o.audio s.currentSound with ⟨_ | _, cur⟩ <;>
          simp [ttsCatch, showSnackbar]

theorem handleAudioTranslation_calls (o : Outcomes) (uri : String) (s : Screen) :
    ∃ extra, (handleAudioTranslation o uri s).calls = s.calls ++ extra ∧
      Call.createRecording ∉ extra := by
  unfold handleAudioTranslation
  cases ht : translateAudio o.translation with
  | error e => exact ⟨[.translateAudio uri s.targetLanguage], by simp [Screen.call, showSnackbar]⟩
  | ok r =>
    simp only
    have key := processTranslationResult_calls o r
      (({ s with statusText := "Traduzindo áudio..." } : Screen).call
        (.translateAudio uri s.targetLanguage))
    rcases hp : processTranslationResult o r
      (({ s with statusText := "Traduzindo áudio..." } : Screen).call
        (.translateAudio uri s.targetLanguage)) with ⟨_ | _, s2⟩ <;>
      rw [hp] at key <;> obtain ⟨extra, h, hc, -⟩ := key <;>
      refine ⟨.translateAudio uri s.targetLanguage :: extra, ?_, by simpa using hc⟩ <;>
      simp [Screen.call, showSnackbar] at h ⊢ <;> exact h

theorem stopRecording_calls (o : Outcomes) (s : Screen) :
    ∃ extra, (stopRecording o s).calls = s.calls ++ extra ∧
      Call.createRecording ∉ extra := by
  have key : ∀ (u : String) (S : Screen),
      S.calls = s.calls ++ [.stopAndUnloadAsync, .setAudioModeAsync false] →
      ∃ extra, (handleAudioTranslation o u S).calls = s.calls ++ extra ∧
        Call.createRecording ∉ extra := by
    intro u S hS
    obtain ⟨extra, h, hc⟩ := handleAudioTranslation_calls o u S
    exact ⟨.stopAndUnloadAsync :: .setAudioModeAsync false :: extra,
      by rw [h, hS]; simp, by simpa using hc⟩
  unfold stopRecording
  cases hr : s.recording with
  | none => exact ⟨[], by simp⟩
  | some handle =>
    simp only
    cases hstop : o.stopRejects
    · cases hmode : o.modeRejects
      · rcases hu : o.uri with _ | u
        · exact ⟨[.stopAndUnloadAsync, .setAudioModeAsync false], by simp [Screen.call]⟩
        · by_cases hempty : u = ""
          · exact ⟨[.stopAndUnloadAsync, .setAudioModeAsync false],
              by simp [Screen.call, hempty]⟩
          · simp only [Bool.false_eq_true, if_false, hempty]
            exact key u _ (by simp [Screen.call])
      · exact ⟨[.stopAndUnloadAsync, .setAudioModeAsync false],
          by simp [Screen.call, showSnackbar]⟩
    · exact ⟨[.stopAndUnloadAsync], by simp [Screen.call, showSnackbar]⟩

theorem processTranslationResult_recording (o : Outcomes) (r : Option TranslationResponse)
    (s : Screen) : (processTranslationResult o r s).2.recording = s.recording := by
  unfold processTranslationResult
  cases r with
  | none => rfl
  | some r =>
    simp only [saveTranslation, Screen.call]
    rcases synthesizeSpeech o.synthesis with _ | _ | a
    · rfl
    · rfl
    · simp only
      rcases playAudioFromBase64 o.audio s.currentSound with ⟨_ | _, cur⟩ <;> rfl

theorem handleAudioTranslation_recording (o : Outcomes) (uri : String) (s : Screen) :
    (handleAudioTranslation o uri s).recording = s.recording := by
  unfold handleAudioTranslation
  rcases translateAudio o.translation with _ | r
  · rfl
  · simp only
    have key := processTranslationResult_recording o r
      (({ s with statusText := "Traduzindo áudio..." } : Screen).call
        (.translateAudio uri s.targetLanguage))
    rcases hp : processTranslationResult o r
      (({ s with statusText := "Traduzindo áudio..." } : Screen).call
        (.translateAudio uri s.targetLanguage)) with ⟨_ | _, s2⟩ <;>
      rw [hp] at key <;> simpa [showSnackbar, Screen.call] using key

theorem stopRecording_recording (o : Outcomes) (s : Screen) :
    (stopRecording o s).recording = s.recording ∨ (stopRecording o s).recording = none := by
  unfold stopRecording
  cases hr : s.recording with
  | none => left; simp [hr]
  | some handle =>
    simp only
    cases hstop : o.stopRejects
    · cases hmode : o.modeRejects
      · right
        rcases hu : o.uri with _ | u
        · simp [Screen.call]
        · by_cases hempty : u = ""
          · simp [Screen.call, hempty]
          · simp only [Bool.false_eq_true, if_false, hempty]
            rw [handleAudioTranslation_recording]
            simp [Screen.call]
      · right; simp [Screen.call, showSnackbar]
    · left; simp [Screen.call, showSnackbar]

/-! ## The controller: claims C1, C2 -/

/-- C1 (the code at a failing input). A text submit that arrives while the status is
`TRANSLATING` is not a no-op: `handleTextTranslate` issues a `translateText` request
(and runs the whole pipeline), and the status ends at `PLAYING`. -/
theorem C1_text_submit_while_translating_is_not_a_noop :
    issued { state := .TRANSLATING }
      (handleTextTranslate
        { translation := .ok (some ⟨some "Bom dia", "Good morning"⟩),
          synthesis := .ok (some ⟨"UklGRg"⟩) }
        "Bom dia" { state := .TRANSLATING })
      = [.translateText "Bom dia" "Inglês",
         .saveToHistory "Bom dia" "Good morning" "Inglês",
         .synthesizeSpeech "Good morning",
         .playAudioFromBase64 "UklGRg"] ∧
    (handleTextTranslate
        { translation := .ok (some ⟨some "Bom dia", "Good morning"⟩),
          synthesis := .ok (some ⟨"UklGRg"⟩) }
        "Bom dia" { state := .TRANSLATING }).state = .PLAYING := by
  decide

/-- C2. A record trigger (`handleMicPress`) in status `TRANSLATING` or `PLAYING` is a
no-op: the whole state, the status included, is unchanged and no call is issued.  In
every status other than `IDLE` no recording is created and no new handle is held.  In
status `IDLE`, when expo-av accepts, a recording is created and the status becomes
`RECORDING`. -/
theorem C2_record_trigger_only_from_idle (o : Outcomes) (s : Screen) :
    (s.state = .TRANSLATING ∨ s.state = .PLAYING →
      handleMicPress o s = s ∧ issued s (handleMicPress o s) = []) ∧
    (s.state ≠ .IDLE →
      Call.createRecording ∉ issued s (handleMicPress o s) ∧
      ((handleMicPress o s).recording = s.recording ∨ (handleMicPress o s).recording = none)) ∧
    (s.state = .IDLE → o.modeRejects = false → ∀ r, o.createdRecording = some r →
      (handleMicPress o s).state = .RECORDING ∧
      (handleMicPress o s).recording = some r ∧
      issued s (handleMicPress o s) = [.setAudioModeAsync true, .createRecording]) := by
  refine ⟨?_, ?_, ?_⟩
  · intro h
    have hs : handleMicPress o s = s := by
      rcases h with h | h <;> simp [handleMicPress, h]
    exact ⟨hs, by rw [hs]; simp [issued]⟩
  · intro h
    unfold handleMicPress
    rw [if_neg h]
    split
    · obtain ⟨extra, hc, hn⟩ := stopRecording_calls o s
      rw [issued_append s _ extra hc]
      exact ⟨hn, stopRecording_recording o s⟩
    · simp [issued]
  · intro h hm r hr
    simp [handleMicPress, h, startRecording, hm, hr, issued, Screen.call]

/-- C2 at status `TRANSLATING`: the mic press changes nothing. -/
theorem C2_record_trigger_only_from_idle_witness :
    handleMicPress
        { translation := .ok (some ⟨some "Bom dia", "Good morning"⟩),
          synthesis := .ok (some ⟨"UklGRg"⟩) }
        { state := .TRANSLATING, recording := some ⟨1⟩ }
      = { state := .TRANSLATING, recording := some ⟨1⟩ } :=
  ((C2_record_trigger_only_from_idle
      { translation := .ok (some ⟨some "Bom dia", "Good morning"⟩),
        synthesis := .ok (some ⟨"UklGRg"⟩) }
      { state := .TRANSLATING, recording := some ⟨1⟩ }).1 (Or.inl rfl)).1

/-! ## The controller: claims C7 to C10 -/

theorem processTranslationResult_state (o : Outcomes) (r : Option TranslationResponse)
    (s : Screen) :
    ((processTranslationResult o r s).1 = .ok () ∧
      ((processTranslationResult o r s).2.state = .PLAYING ∨
        (processTranslationResult o r s).2.state = .IDLE)) ∨
    (r = none ∧ ∃ e, (processTranslationResult o r s).1 = .error e) := by
  unfold processTranslationResult
  cases r with
  | none => right; exact ⟨rfl, _, rfl⟩
  | some r =>
    left
    simp only [saveTranslation, Screen.call]
    rcases synthesizeSpeech o.synthesis with _ | _ | a
    · exact ⟨rfl, Or.inr rfl⟩
    · exact ⟨rfl, Or.inr rfl⟩
    · simp only
      rcases playAudioFromBase64 o.audio s.currentSound with ⟨_ | _, cur⟩
      · exact ⟨rfl, Or.inr rfl⟩
      · exact ⟨rfl, Or.inl rfl⟩

theorem handleAudioTranslation_state (o : Outcomes) (uri : String) (s : Screen) :
    (handleAudioTranslation o uri s).state = .PLAYING ∨
      (handleAudioTranslation o uri s).state = .IDLE := by
  unfold handleAudioTranslation
  rcases translateAudio o.translation with _ | r
  · right; rfl
  · simp only
    have key := processTranslationResult_state o r
      (({ s with statusText := "Traduzindo áudio..." } : Screen).call
        (.translateAudio uri s.targetLanguage))
    rcases hp : processTranslationResult o r
      (({ s with statusText := "Traduzindo áudio..." } : Screen).call
        (.translateAudio uri s.targetLanguage)) with ⟨_ | _, s2⟩ <;>
      rw [hp] at key
    · right; rfl
    · rcases key with ⟨-, h⟩ | ⟨-, e, h⟩
      · exact h
      · simp at h

/-- A stop-capture request whose recording yields a non-empty URI ends at `PLAYING` or
`IDLE`, whatever the platform answers. -/
theorem stopRecording_with_uri_state (o : Outcomes) (s : Screen) (handle : Recording)
    (u : String) (hr : s.recording = some handle) (hu : o.uri = some u) (hne : u ≠ "") :
    (stopRecording o s).state = .PLAYING ∨ (stopRecording o s).state = .IDLE := by
  unfold stopRecording
  simp only [hr, hu]
  cases o.stopRejects
  · cases o.modeRejects
    · simp only [Bool.false_eq_true, if_false, hne]
      exact handleAudioTranslation_state o u _
    · right; rfl
  · right; rfl

/-- C7 (the code at a failing input). A stop-capture request on an active recording
whose `getURI()` is `null`, with every platform call succeeding: `stopRecording` issues
no translation request and leaves the status at `TRANSLATING`; a further mic press does
not change it. -/
theorem C7_stop_without_uri_is_left_translating :
    (handleMicPress
        { translation := .ok (some ⟨none, "Good morning"⟩),
          synthesis := .ok (some ⟨"UklGRg"⟩), uri := none }
        { state := .RECORDING, recording := some ⟨1⟩ }).state = .TRANSLATING ∧
    issued { state := .RECORDING, recording := some ⟨1⟩ }
      (handleMicPress
        { translation := .ok (some ⟨none, "Good morning"⟩),
          synthesis := .ok (some ⟨"UklGRg"⟩), uri := none }
        { state := .RECORDING, recording := some ⟨1⟩ })
      = [.stopAndUnloadAsync, .setAudioModeAsync false] ∧
    (handleMicPress
        { translation := .ok (some ⟨none, "Good morning"⟩),
          synthesis := .ok (some ⟨"UklGRg"⟩), uri := some "file:///rec.m4a" }
      (handleMicPress
        { translation := .ok (some ⟨none, "Good morning"⟩),
          synthesis := .ok (some ⟨"UklGRg"⟩), uri := none }
        { state := .RECORDING, recording := some ⟨1⟩ })).state = .TRANSLATING := by
  decide

/-- C8. If the `translateText` call fails during `handleTextTranslate`, the failure is
caught: the snackbar shows `'Erro: '` followed by the error message, the final status is
`IDLE`, and the only call issued is the `translateText` request: no history entry is
written (the storage is unchanged), no synthesis request is made and no playback is
started (the tracked sound is unchanged). -/
theorem C8_translate_failure_is_surfaced (o : Outcomes) (text : String) (s : Screen)
    (error : JsError) (hfail : translateText o.translation = .error error) :
    (handleTextTranslate o text s).snackbarMessage = "Erro: " ++ error.message ∧
    (handleTextTranslate o text s).snackbarVisible = true ∧
    (handleTextTranslate o text s).state = .IDLE ∧
    issued s (handleTextTranslate o text s) = [.translateText text s.targetLanguage] ∧
    (handleTextTranslate o text s).storage = s.storage ∧
    (handleTextTranslate o text s).currentSound = s.currentSound ∧
    (handleTextTranslate o text s).audioBase64 = s.audioBase64 := by
  simp [handleTextTranslate, hfail, showSnackbar, Screen.call, issued]

/-- C8 at a timeout without backend detail: the notice is `Erro: Translation failed`. -/
theorem C8_translate_failure_is_surfaced_witness :
    (handleTextTranslate
        { translation := .failed "timeout of 30000ms exceeded" none,
          synthesis := .ok (some ⟨"UklGRg"⟩) }
        "Bom dia" {}).snackbarMessage = "Erro: " ++ "Translation failed" :=
  (C8_translate_failure_is_surfaced
      { translation := .failed "timeout of 30000ms exceeded" none,
        synthesis := .ok (some ⟨"UklGRg"⟩) }
      "Bom dia" {} ⟨"Translation failed"⟩ rfl).1

/-- C9. If `synthesizeSpeech` fails, or starting the playback fails, inside
`processTranslationResult`, the failure is caught: the function returns normally (the
error does not reach the caller), the snackbar shows `'Erro ao gerar áudio (TTS)'`, and
the final status is `IDLE`. -/
theorem C9_synthesis_or_playback_failure_is_caught (o : Outcomes)
    (result : TranslationResponse) (s : Screen)
    (hfail : (∃ e, synthesizeSpeech o.synthesis = .error e) ∨
      (∃ a e, synthesizeSpeech o.synthesis = .ok (some a) ∧
        (playAudioFromBase64 o.audio s.currentSound).1 = .error e)) :
    (processTranslationResult o (some result) s).1 = .ok () ∧
    (processTranslationResult o (some result) s).2.state = .IDLE ∧
    (processTranslationResult o (some result) s).2.snackbarVisible = true ∧
    (processTranslationResult o (some result) s).2.snackbarMessage
      = "Erro ao gerar áudio (TTS)" := by
  unfold processTranslationResult
  simp only [saveTranslation, Screen.call]
  rcases hfail with ⟨e, h⟩ | ⟨a, e, h, hp⟩
  · rw [h]
    exact ⟨rfl, rfl, rfl, rfl⟩
  · rw [h]
    simp only
    rcases hq : playAudioFromBase64 o.audio s.currentSound with ⟨_ | _, cur⟩
    · exact ⟨rfl, rfl, rfl, rfl⟩
    · rw [hq] at hp
      simp at hp

/-- C9 at a rejected synthesis request and at a rejected `createAsync`. -/
theorem C9_synthesis_or_playback_failure_is_caught_witness :
    (processTranslationResult
        { translation := .ok (some ⟨some "Bom dia", "Good morning"⟩),
          synthesis := .failed "Network Error" none }
        (some ⟨some "Bom dia", "Good morning"⟩) { state := .TRANSLATING }).2.state = .IDLE ∧
    (processTranslationResult
        { translation := .ok (some ⟨some "Bom dia", "Good morning"⟩),
          synthesis := .ok (some ⟨"UklGRg"⟩), audio := { created := none } }
        (some ⟨some "Bom dia", "Good morning"⟩) { state := .TRANSLATING }).2.state = .IDLE :=
  ⟨(C9_synthesis_or_playback_failure_is_caught
      { translation := .ok (some ⟨some "Bom dia", "Good morning"⟩),
        synthesis := .failed "Network Error" none }
      ⟨some "Bom dia", "Good morning"⟩ { state := .TRANSLATING }
      (Or.inl ⟨_, rfl⟩)).2.1,
   (C9_synthesis_or_playback_failure_is_caught
      { translation := .ok (some ⟨some "Bom dia", "Good morning"⟩),
        synthesis := .ok (some ⟨"UklGRg"⟩), audio := { created := none } }
      ⟨some "Bom dia", "Good morning"⟩ { state := .TRANSLATING }
      (Or.inr ⟨_, _, rfl, rfl⟩)).2.1⟩

/-- C10 (counterexample). A text submission from the initial state whose translation
succeeds and whose synthesis request fails: the run fails (status `IDLE`), yet the
translated text and the persisted history are not what they were before the submission:
the text is the new translation and the history holds the new entry. -/
theorem C10_synthesis_failure_keeps_translation_and_entry :
    (synthesizeSpeech (.failed "Network Error" none) =
      .error ⟨"Speech synthesis failed"⟩) ∧
    (handleTextTranslate
        { translation := .ok (some ⟨some "Bom dia", "Good morning"⟩),
          synthesis := .failed "Network Error" none, clock := ⟨7, "t7"⟩ }
        "Bom dia" {}).state = .IDLE ∧
    (handleTextTranslate
        { translation := .ok (some ⟨some "Bom dia", "Good morning"⟩),
          synthesis := .failed "Network Error" none, clock := ⟨7, "t7"⟩ }
        "Bom dia" {}).translatedText = "Good morning" ∧
    HistoryModal.persisted (handleTextTranslate
        { translation := .ok (some ⟨some "Bom dia", "Good morning"⟩),
          synthesis := .failed "Network Error" none, clock := ⟨7, "t7"⟩ }
        "Bom dia" {}).storage = [⟨7, "Bom dia", "Good morning", "Inglês", "t7"⟩] ∧
    ¬ ((handleTextTranslate
          { translation := .ok (some ⟨some "Bom dia", "Good morning"⟩),
            synthesis := .failed "Network Error" none, clock := ⟨7, "t7"⟩ }
          "Bom dia" {}).translatedText = ({} : Screen).translatedText ∧
        (handleTextTranslate
          { translation := .ok (some ⟨some "Bom dia", "Good morning"⟩),
            synthesis := .failed "Network Error" none, clock := ⟨7, "t7"⟩ }
          "Bom dia" {}).audioBase64 = ({} : Screen).audioBase64 ∧
        HistoryModal.persisted (handleTextTranslate
          { translation := .ok (some ⟨some "Bom dia", "Good morning"⟩),
            synthesis := .failed "Network Error" none, clock := ⟨7, "t7"⟩ }
          "Bom dia" {}).storage = HistoryModal.persisted ({} : Screen).storage) := by
  decide

/-- C10 (amended). When a pipeline run (text: `handleTextTranslate`, audio:
`handleAudioTranslation`, whose second argument is then the audio URI) fails at the
translation request, the in-memory translated text, the cached audio payload and the
storage (so the persisted history) are what they were before the submission.  When it
fails at the synthesis request, the cached audio payload is what it was before the
submission and the status is `IDLE`, while the translated text is the new translation
and the storage is the one `saveToHistory` left when it was called with the new entry. -/
theorem C10_failed_run_retained_state (o : Outcomes) (text : String) (s : Screen) :
    (∀ error, translateText o.translation = .error error →
      (handleTextTranslate o text s).translatedText = s.translatedText ∧
      (handleTextTranslate o text s).audioBase64 = s.audioBase64 ∧
      (handleTextTranslate o text s).storage = s.storage) ∧
    (∀ result error, translateText o.translation = .ok (some result) →
      synthesizeSpeech o.synthesis = .error error →
      (handleTextTranslate o text s).audioBase64 = s.audioBase64 ∧
      (handleTextTranslate o text s).state = .IDLE ∧
      (handleTextTranslate o text s).translatedText = result.translated_text ∧
      (handleTextTranslate o text s).storage =
        (HistoryModal.saveToHistory o.clock o.faults s.storage
          (orElse result.original_text "Áudio") result.translated_text
          s.targetLanguage).2) ∧
    (∀ error, translateAudio o.translation = .error error →
      (handleAudioTranslation o text s).translatedText = s.translatedText ∧
      (handleAudioTranslation o text s).audioBase64 = s.audioBase64 ∧
      (handleAudioTranslation o text s).storage = s.storage) ∧
    (∀ result error, translateAudio o.translation = .ok (some result) →
      synthesizeSpeech o.synthesis = .error error →
      (handleAudioTranslation o text s).audioBase64 = s.audioBase64 ∧
      (handleAudioTranslation o text s).state = .IDLE ∧
      (handleAudioTranslation o text s).translatedText = result.translated_text ∧
      (handleAudioTranslation o text s).storage =
        (HistoryModal.saveToHistory o.clock o.faults s.storage
          (orElse result.original_text "Áudio") result.translated_text
          s.targetLanguage).2) := by
  refine ⟨?_, ?_, ?_, ?_⟩
  · intro error h
    simp [handleTextTranslate, h, showSnackbar, Screen.call]
  · intro result error h hs
    simp [handleTextTranslate, h, hs, processTranslationResult, saveTranslation,
      ttsCatch, showSnackbar, Screen.call]
  · intro error h
    simp [handleAudioTranslation, h, showSnackbar, Screen.call]
  · intro result error h hs
    simp [handleAudioTranslation, h, hs, processTranslationResult, saveTranslation,
      ttsCatch, showSnackbar, Screen.call]

/-- C10 (amended) at a failed translation and at a failed synthesis after a cached
payload `"AAAA"`. -/
theorem C10_failed_run_retained_state_witness :
    (handleTextTranslate
        { translation := .failed "Network Error" (some "backend down"),
          synthesis := .ok (some ⟨"UklGRg"⟩) }
        "Bom dia" { translatedText := "Hello", audioBase64 := some "AAAA" }).translatedText
      = "Hello" ∧
    (handleTextTranslate
        { translation := .ok (some ⟨some "Bom dia", "Good morning"⟩),
          synthesis := .failed "Network Error" none }
        "Bom dia" { translatedText := "Hello", audioBase64 := some "AAAA" }).audioBase64
      = some "AAAA" :=
  ⟨((C10_failed_run_retained_state
      { translation := .failed "Network Error" (some "backend down"),
        synthesis := .ok (some ⟨"UklGRg"⟩) }
      "Bom dia" { translatedText := "Hello", audioBase64 := some "AAAA" }).1
        ⟨"backend down"⟩ (by decide)).1,
   ((C10_failed_run_retained_state
      { translation := .ok (some ⟨some "Bom dia", "Good morning"⟩),
        synthesis := .failed "Network Error" none }
      "Bom dia" { translatedText := "Hello", audioBase64 := some "AAAA" }).2.1
        ⟨some "Bom dia", "Good morning"⟩ ⟨"Speech synthesis failed"⟩ rfl rfl).1⟩

/-! ## The submission pipeline: claims C11 to C14 -/

/-- A run in which translation, synthesis and playback succeed is the composition of
the four stages. -/
theorem handleTextTranslate_stages (o : Outcomes) (text : String) (s : Screen)
    (result : TranslationResponse) (audioResult : SynthesisResponse) (sound : Sound)
    (ht : translateText o.translation = .ok (some result))
    (hs : synthesizeSpeech o.synthesis = .ok (some audioResult))
    (hp : (playAudioFromBase64 o.audio s.currentSound).1 = .ok sound) :
    handleTextTranslate o text s =
      stagePlaying result (playAudioFromBase64 o.audio s.currentSound).2
        (stageSynthesized audioResult (stageTranslated o result (stageSubmitted text s))) := by
  rcases hq : playAudioFromBase64 o.audio s.currentSound with ⟨r, cur⟩
  rw [hq] at hp
  simp only at hp
  subst hp
  simp [handleTextTranslate, processTranslationResult, ht, hs, hq, stagePlaying,
    stageSynthesized, stageTranslated, stageSubmitted, saveTranslation, Screen.call,
    showSnackbar]

theorem stages_calls (o : Outcomes) (text : String) (s : Screen)
    (result : TranslationResponse) (audioResult : SynthesisResponse) (cur : Option Sound) :
    issued s (stageSubmitted text s) = [.translateText text s.targetLanguage] ∧
    issued s (stageTranslated o result (stageSubmitted text s)) =
      [.translateText text s.targetLanguage,
       .saveToHistory (orElse result.original_text "Áudio") result.translated_text
         s.targetLanguage,
       .synthesizeSpeech result.translated_text] ∧
    issued s (stageSynthesized audioResult (stageTranslated o result (stageSubmitted text s))) =
      [.translateText text s.targetLanguage,
       .saveToHistory (orElse result.original_text "Áudio") result.translated_text
         s.targetLanguage,
       .synthesizeSpeech result.translated_text,
       .playAudioFromBase64 audioResult.audio_base64] ∧
    issued s (stagePlaying result cur
        (stageSynthesized audioResult (stageTranslated o result (stageSubmitted text s)))) =
      [.translateText text s.targetLanguage,
       .saveToHistory (orElse result.original_text "Áudio") result.translated_text
         s.targetLanguage,
       .synthesizeSpeech result.translated_text,
       .playAudioFromBase64 audioResult.audio_base64] := by
  simp [issued, stagePlaying, stageSynthesized, stageTranslated, stageSubmitted,
    saveTranslation, Screen.call, showSnackbar]

theorem processTranslationResult_storage (o : Outcomes) (r : TranslationResponse)
    (s : Screen) :
    (processTranslationResult o (some r) s).2.storage =
      (HistoryModal.saveToHistory o.clock o.faults s.storage
        (orElse r.original_text "Áudio") r.translated_text s.targetLanguage).2 := by
  unfold processTranslationResult
  simp only [saveTranslation, Screen.call]
  rcases synthesizeSpeech o.synthesis with _ | _ | a
  · rfl
  · rfl
  · simp only
    rcases playAudioFromBase64 o.audio s.currentSound with ⟨_ | _, cur⟩ <;> rfl

theorem handleTextTranslate_storage (o : Outcomes) (text : String) (s : Screen)
    (r : TranslationResponse) (ht : translateText o.translation = .ok (some r)) :
    (handleTextTranslate o text s).storage =
      (HistoryModal.saveToHistory o.clock o.faults s.storage
        (orElse r.original_text "Áudio") r.translated_text s.targetLanguage).2 := by
  unfold handleTextTranslate
  simp only [ht]
  have key := processTranslationResult_storage o r
    (({ s with modalVisible := false, state := .TRANSLATING,
               statusText := "Traduzindo texto..." } : Screen).call
      (.translateText text s.targetLanguage))
  rcases hp : processTranslationResult o (some r)
    (({ s with modalVisible := false, state := .TRANSLATING,
               statusText := "Traduzindo texto..." } : Screen).call
      (.translateText text s.targetLanguage)) with ⟨_ | _, s2⟩ <;>
    rw [hp] at key <;> simpa [showSnackbar, Screen.call] using key

/-- C11 (counterexample). A text submission whose history write is rejected by the
storage: `saveToHistory` resolves to `false`, no error notice is shown, and the pipeline
goes on to `synthesizeSpeech` and `playAudioFromBase64`, ending at `PLAYING` with the
notice `'Tradução concluída!'` and an empty persisted history. -/
theorem C11_rejected_history_write_does_not_stop_the_pipeline :
    (HistoryModal.saveToHistory ⟨7, "t7"⟩ { setRejects := true } Storage.blank
      "Bom dia" "Good morning" "Inglês").1 = false ∧
    issued {}
      (handleTextTranslate
        { translation := .ok (some ⟨some "Bom dia", "Good morning"⟩),
          synthesis := .ok (some ⟨"UklGRg"⟩), clock := ⟨7, "t7"⟩,
          faults := { setRejects := true } }
        "Bom dia" {})
      = [.translateText "Bom dia" "Inglês",
         .saveToHistory "Bom dia" "Good morning" "Inglês",
         .synthesizeSpeech "Good morning",
         .playAudioFromBase64 "UklGRg"] ∧
    (handleTextTranslate
        { translation := .ok (some ⟨some "Bom dia", "Good morning"⟩),
          synthesis := .ok (some ⟨"UklGRg"⟩), clock := ⟨7, "t7"⟩,
          faults := { setRejects := true } }
        "Bom dia" {}).state = .PLAYING ∧
    (handleTextTranslate
        { translation := .ok (some ⟨some "Bom dia", "Good morning"⟩),
          synthesis := .ok (some ⟨"UklGRg"⟩), clock := ⟨7, "t7"⟩,
          faults := { setRejects := true } }
        "Bom dia" {}).snackbarMessage = "Tradução concluída!" ∧
    HistoryModal.persisted (handleTextTranslate
        { translation := .ok (some ⟨some "Bom dia", "Good morning"⟩),
          synthesis := .ok (some ⟨"UklGRg"⟩), clock := ⟨7, "t7"⟩,
          faults := { setRejects := true } }
        "Bom dia" {}).storage = [] := by
  decide

/-- C11 (amended). In the text submission pipeline the failure of the translation, of
the synthesis and of the playback start is surfaced in the snackbar and stops the
pipeline (status `IDLE`, no later call is issued).  A failure to persist the history
entry is not surfaced: when `saveToHistory` resolves to `false` the storage is left as
it was and the pipeline goes on to speech synthesis and playback, ending at `PLAYING`
with the notice `'Tradução concluída!'`. -/
theorem C11_step_failures_and_history_failure (o : Outcomes) (text : String) (s : Screen) :
    (∀ error, translateText o.translation = .error error →
      (handleTextTranslate o text s).snackbarVisible = true ∧
      (handleTextTranslate o text s).snackbarMessage = "Erro: " ++ error.message ∧
      (handleTextTranslate o text s).state = .IDLE ∧
      issued s (handleTextTranslate o text s) = [.translateText text s.targetLanguage]) ∧
    (∀ result error, translateText o.translation = .ok (some result) →
      synthesizeSpeech o.synthesis = .error error →
      (handleTextTranslate o text s).snackbarVisible = true ∧
      (handleTextTranslate o text s).snackbarMessage = "Erro ao gerar áudio (TTS)" ∧
      (handleTextTranslate o text s).state = .IDLE ∧
      issued s (handleTextTranslate o text s) =
        [.translateText text s.targetLanguage,
         .saveToHistory (orElse result.original_text "Áudio") result.translated_text
           s.targetLanguage,
         .synthesizeSpeech result.translated_text]) ∧
    (∀ result audioResult error, translateText o.translation = .ok (some result) →
      synthesizeSpeech o.synthesis = .ok (some audioResult) →
      (playAudioFromBase64 o.audio s.currentSound).1 = .error error →
      (handleTextTranslate o text s).snackbarVisible = true ∧
      (handleTextTranslate o text s).snackbarMessage = "Erro ao gerar áudio (TTS)" ∧
      (handleTextTranslate o text s).state = .IDLE) ∧
    (∀ result audioResult sound, translateText o.translation = .ok (some result) →
      synthesizeSpeech o.synthesis = .ok (some audioResult) →
      (playAudioFromBase64 o.audio s.currentSound).1 = .ok sound →
      (HistoryModal.saveToHistory o.clock o.faults s.storage
        (orElse result.original_text "Áudio") result.translated_text
        s.targetLanguage).1 = false →
      (handleTextTranslate o text s).storage = s.storage ∧
      (handleTextTranslate o text s).state = .PLAYING ∧
      (handleTextTranslate o text s).snackbarMessage = "Tradução concluída!" ∧
      issued s (handleTextTranslate o text s) =
        [.translateText text s.targetLanguage,
         .saveToHistory (orElse result.original_text "Áudio") result.translated_text
           s.targetLanguage,
         .synthesizeSpeech result.translated_text,
         .playAudioFromBase64 audioResult.audio_base64]) := by
  refine ⟨?_, ?_, ?_, ?_⟩
  · intro error h
    simp [handleTextTranslate, h, showSnackbar, Screen.call, issued]
  · intro result error h hs
    simp [handleTextTranslate, h, hs, processTranslationResult, saveTranslation,
      ttsCatch, showSnackbar, Screen.call, issued]
  · intro result audioResult error h hs hp
    rcases hq : playAudioFromBase64 o.audio s.currentSound with ⟨r, cur⟩
    rw [hq] at hp
    simp only at hp
    subst hp
    simp [handleTextTranslate, h, hs, hq, processTranslationResult, saveTranslation,
      ttsCatch, showSnackbar, Screen.call]
  · intro result audioResult sound h hs hp hsave
    have hst := handleTextTranslate_storage o text s result h
    rw [HistoryModal.saveToHistory_false _ _ _ _ _ _ hsave] at hst
    rw [handleTextTranslate_stages o text s result audioResult sound h hs hp]
    refine ⟨?_, rfl, rfl, (stages_calls o text s result audioResult _).2.2.2⟩
    rw [← handleTextTranslate_stages o text s result audioResult sound h hs hp]
    exact hst

/-- C11 (amended) at a rejected history write: the run ends at `PLAYING`. -/
theorem C11_step_failures_and_history_failure_witness :
    (handleTextTranslate
        { translation := .ok (some ⟨some "Bom dia", "Good morning"⟩),
          synthesis := .ok (some ⟨"UklGRg"⟩), clock := ⟨7, "t7"⟩,
          faults := { setRejects := true } }
        "Bom dia" {}).state = .PLAYING :=
  ((C11_step_failures_and_history_failure
      { translation := .ok (some ⟨some "Bom dia", "Good morning"⟩),
        synthesis := .ok (some ⟨"UklGRg"⟩), clock := ⟨7, "t7"⟩,
        faults := { setRejects := true } }
      "Bom dia" {}).2.2.2 ⟨some "Bom dia", "Good morning"⟩ ⟨"UklGRg"⟩ ⟨0⟩
      rfl rfl rfl (by decide)).2.1

/-- C12. In a text submission where translation, synthesis and playback start succeed,
the calls that leave the controller are, in this order and each exactly once,
`translateText`, `saveToHistory`, `synthesizeSpeech`, `playAudioFromBase64`; each is
issued by the stage that starts from the result of the one before: the log is
`[translateText]` while the translation is awaited, grows by `saveToHistory` and
`synthesizeSpeech` once it has resolved, and by `playAudioFromBase64` once the synthesis
has resolved. -/
theorem C12_successful_submission_call_order (o : Outcomes) (text : String) (s : Screen)
    (result : TranslationResponse) (audioResult : SynthesisResponse) (sound : Sound)
    (ht : translateText o.translation = .ok (some result))
    (hs : synthesizeSpeech o.synthesis = .ok (some audioResult))
    (hp : (playAudioFromBase64 o.audio s.currentSound).1 = .ok sound) :
    issued s (handleTextTranslate o text s) =
      [.translateText text s.targetLanguage,
       .saveToHistory (orElse result.original_text "Áudio") result.translated_text
         s.targetLanguage,
       .synthesizeSpeech result.translated_text,
       .playAudioFromBase64 audioResult.audio_base64] ∧
    (issued s (handleTextTranslate o text s)).Nodup ∧
    issued s (stageSubmitted text s) = [.translateText text s.targetLanguage] ∧
    issued s (stageTranslated o result (stageSubmitted text s)) =
      [.translateText text s.targetLanguage,
       .saveToHistory (orElse result.original_text "Áudio") result.translated_text
         s.targetLanguage,
       .synthesizeSpeech result.translated_text] ∧
    issued s (stageSynthesized audioResult (stageTranslated o result (stageSubmitted text s))) =
      [.translateText text s.targetLanguage,
       .saveToHistory (orElse result.original_text "Áudio") result.translated_text
         s.targetLanguage,
       .synthesizeSpeech result.translated_text,
       .playAudioFromBase64 audioResult.audio_base64] := by
  have hc := stages_calls o text s result audioResult
    (playAudioFromBase64 o.audio s.currentSound).2
  rw [handleTextTranslate_stages o text s result audioResult sound ht hs hp, hc.2.2.2]
  exact ⟨rfl, by simp, hc.1, hc.2.1, hc.2.2.1⟩

/-- C12 at the submission of `Bom dia` from the initial state. -/
theorem C12_successful_submission_call_order_witness :
    issued {}
      (handleTextTranslate
        { translation := .ok (some ⟨some "Bom dia", "Good morning"⟩),
          synthesis := .ok (some ⟨"UklGRg"⟩) }
        "Bom dia" {})
      = [.translateText "Bom dia" "Inglês",
         .saveToHistory "Bom dia" "Good morning" "Inglês",
         .synthesizeSpeech "Good morning",
         .playAudioFromBase64 "UklGRg"] :=
  (C12_successful_submission_call_order
      { translation := .ok (some ⟨some "Bom dia", "Good morning"⟩),
        synthesis := .ok (some ⟨"UklGRg"⟩) }
      "Bom dia" {} ⟨some "Bom dia", "Good morning"⟩ ⟨"UklGRg"⟩ ⟨0⟩ rfl rfl rfl).1

/-- C13. For every submitted text and every backend response
`{original_text: o, translated_text: t}` with `o` non-empty, a text pipeline whose
translation and history save succeed makes the first entry of the history (as
`loadHistory` reads it) have original `o`, translated `t` and, as language, the target
language selected when the text was submitted. -/
theorem C13_pipeline_history_first_entry (o : Outcomes) (text : String) (s : Screen)
    (original translated : String) (m : HistoryModal.ModalState)
    (ho : original ≠ "")
    (ht : translateText o.translation = .ok (some ⟨some original, translated⟩))
    (hsave : (HistoryModal.saveToHistory o.clock o.faults s.storage original translated
      s.targetLanguage).1 = true) :
    ∃ e rest,
      (HistoryModal.loadHistory false (handleTextTranslate o text s).storage m).history
        = e :: rest ∧
      e.original = original ∧ e.translated = translated ∧
      e.language = s.targetLanguage := by
  have hst := handleTextTranslate_storage o text s _ ht
  have hor : orElse (some original) "Áudio" = original := by simp [orElse, ho]
  simp only [hor] at hst
  rw [hst, HistoryModal.loadHistory_history_eq _ _ m {}]
  have hp := HistoryModal.persisted_saveToHistory _ _ _ _ _ _ hsave
  unfold HistoryModal.persisted at hp
  rw [hp]
  exact ⟨_, (HistoryModal.persisted s.storage).take 49, rfl, rfl, rfl, rfl⟩

/-- C13 at `Bom dia` → `Good morning` with target language `English`. -/
theorem C13_pipeline_history_first_entry_witness :
    ∃ e rest,
      (HistoryModal.loadHistory false
        (handleTextTranslate
          { translation := .ok (some ⟨some "Bom dia", "Good morning"⟩),
            synthesis := .ok (some ⟨"UklGRg"⟩) }
          "Bom dia" { targetLanguage := "English" }).storage {}).history = e :: rest ∧
      e.original = "Bom dia" ∧ e.translated = "Good morning" ∧ e.language = "English" :=
  C13_pipeline_history_first_entry
    { translation := .ok (some ⟨some "Bom dia", "Good morning"⟩),
      synthesis := .ok (some ⟨"UklGRg"⟩) }
    "Bom dia" { targetLanguage := "English" } "Bom dia" "Good morning" {}
    (by decide) rfl (by decide)

/-- C14. The status starts at `IDLE`.  In a pipeline run whose translation, synthesis
and playback start succeed, the status is `TRANSLATING` while the translation is
awaited and while the synthesis is awaited, is `PLAYING` from the moment the playback
is requested (right after the synthesis resolved) and at the end of the run, and
becomes `IDLE` when a playback status update with `didJustFinish` arrives; a status
update without `didJustFinish` changes nothing, so from `PLAYING` an update gives `IDLE`
exactly when it carries `didJustFinish`. -/
theorem C14_status_through_successful_pipeline (o : Outcomes) (text : String) (s : Screen)
    (result : TranslationResponse) (audioResult : SynthesisResponse) (sound : Sound)
    (ht : translateText o.translation = .ok (some result))
    (hs : synthesizeSpeech o.synthesis = .ok (some audioResult))
    (hp : (playAudioFromBase64 o.audio s.currentSound).1 = .ok sound) :
    ({} : Screen).state = .IDLE ∧
    (stageSubmitted text s).state = .TRANSLATING ∧
    (stageTranslated o result (stageSubmitted text s)).state = .TRANSLATING ∧
    (stageSynthesized audioResult
      (stageTranslated o result (stageSubmitted text s))).state = .PLAYING ∧
    handleTextTranslate o text s =
      stagePlaying result (playAudioFromBase64 o.audio s.currentSound).2
        (stageSynthesized audioResult (stageTranslated o result (stageSubmitted text s))) ∧
    (handleTextTranslate o text s).state = .PLAYING ∧
    (onPlaybackStatusUpdate true (handleTextTranslate o text s)).state = .IDLE ∧
    onPlaybackStatusUpdate false (handleTextTranslate o text s) = handleTextTranslate o text s ∧
    (∀ didJustFinish s', s'.state = .PLAYING →
      ((onPlaybackStatusUpdate didJustFinish s').state = .IDLE ↔ didJustFinish = true)) ∧
    (∀ s', onPlaybackStatusUpdate false s' = s') := by
  have hst := handleTextTranslate_stages o text s result audioResult sound ht hs hp
  refine ⟨rfl, rfl, rfl, rfl, hst, by rw [hst]; rfl, rfl, rfl, ?_, fun _ => rfl⟩
  intro d s' hs'
  cases d <;> simp [onPlaybackStatusUpdate, hs']

/-- C14 at the submission of `Bom dia` from the initial state: `PLAYING` at the end of
the run, `IDLE` after the finishing status update. -/
theorem C14_status_through_successful_pipeline_witness :
    (handleTextTranslate
        { translation := .ok (some ⟨some "Bom dia", "Good morning"⟩),
          synthesis := .ok (some ⟨"UklGRg"⟩) }
        "Bom dia" {}).state = .PLAYING ∧
    (onPlaybackStatusUpdate true
      (handleTextTranslate
        { translation := .ok (some ⟨some "Bom dia", "Good morning"⟩),
          synthesis := .ok (some ⟨"UklGRg"⟩) }
        "Bom dia" {})).state = .IDLE :=
  ⟨(C14_status_through_successful_pipeline
      { translation := .ok (some ⟨some "Bom dia", "Good morning"⟩),
        synthesis := .ok (some ⟨"UklGRg"⟩) }
      "Bom dia" {} ⟨some "Bom dia", "Good morning"⟩ ⟨"UklGRg"⟩ ⟨0⟩ rfl rfl rfl).2.2.2.2.2.1,
   (C14_status_through_successful_pipeline
      { translation := .ok (some ⟨some "Bom dia", "Good morning"⟩),
        synthesis := .ok (some ⟨"UklGRg"⟩) }
      "Bom dia" {} ⟨some "Bom dia", "Good morning"⟩ ⟨"UklGRg"⟩ ⟨0⟩ rfl rfl rfl).2.2.2.2.2.2.1⟩

/-! ## Text input: claims C15 and C16 -/

theorem jsTrim_eq_empty_iff (text : String) :
    jsTrim text = "" ↔ ∀ c ∈ text.data, isJsWhiteSpace c = true := by
  have h0 : jsTrim text = "" ↔
      ((text.data.dropWhile isJsWhiteSpace).reverse.dropWhile isJsWhiteSpace).reverse = [] := by
    unfold jsTrim
    constructor
    · intro h
      exact congrArg String.data h
    · intro h
      rw [h]
  rw [h0, List.reverse_eq_nil_iff]
  constructor
  · intro h
    rcases hd : text.data.dropWhile isJsWhiteSpace with _ | ⟨c, rest⟩
    · simpa using hd
    · exfalso
      have hc : isJsWhiteSpace c = false := by
        have := List.head_dropWhile_not isJsWhiteSpace text.data (by rw [hd]; simp)
        simpa [hd] using this
      rw [hd, List.dropWhile_eq_nil_iff] at h
      have := h c (by simp)
      rw [hc] at this
      exact Bool.false_ne_true this
  · intro h
    have hd : text.data.dropWhile isJsWhiteSpace = [] := by
      rw [List.dropWhile_eq_nil_iff]
      exact h
    rw [hd]
    rfl

/-- C15. For every text, `TextInputModal.handleSubmit` invokes `onSubmit` if and only
if `text.trim()` is non-empty, and then passes the trimmed text, so that
`handleTextTranslate` requests the translation of the trimmed text; for empty or
whitespace-only text (every character is stripped by `trim`) `onSubmit` is not invoked,
the screen is unchanged and no call is issued.  Likewise `handleTranslate` of App.tsx
issues no `translateText` request for such a text. -/
theorem C15_submit_iff_trimmed_text_nonempty (text : String) (o : Outcomes) (s : Screen)
    (a : AppTsx.Answers) (app : AppTsx.State) :
    ((TextInputModal.handleSubmit text).1.isSome = true ↔ jsTrim text ≠ "") ∧
    (∀ submitted, (TextInputModal.handleSubmit text).1 = some submitted →
      submitted = jsTrim text) ∧
    (jsTrim text ≠ "" →
      (submitTextModal o text s).2 = handleTextTranslate o (jsTrim text) s ∧
      (issued s (submitTextModal o text s).2).head? =
        some (.translateText (jsTrim text) s.targetLanguage)) ∧
    (jsTrim text = "" ↔ ∀ c ∈ text.data, isJsWhiteSpace c = true) ∧
    ((∀ c ∈ text.data, isJsWhiteSpace c = true) →
      (TextInputModal.handleSubmit text).1 = none ∧
      (submitTextModal o text s).2 = s ∧
      issued s (submitTextModal o text s).2 = [] ∧
      (AppTsx.handleTranslate a text app).requests = app.requests) := by
  refine ⟨?_, ?_, ?_, jsTrim_eq_empty_iff text, ?_⟩
  · by_cases h : jsTrim text = "" <;> simp [TextInputModal.handleSubmit, h]
  · intro submitted
    by_cases h : jsTrim text = "" <;> simp [TextInputModal.handleSubmit, h]
    intro h'
    exact h'.symm
  · intro h
    have hsub : (submitTextModal o text s).2 = handleTextTranslate o (jsTrim text) s := by
      simp [submitTextModal, TextInputModal.handleSubmit, h]
    refine ⟨hsub, ?_⟩
    rw [hsub]
    unfold handleTextTranslate
    rcases translateText o.translation with e | r
    · simp [issued, Screen.call, showSnackbar]
    · simp only
      obtain ⟨extra, hc, -⟩ := processTranslationResult_calls o r
        (({ s with modalVisible := false, state := .TRANSLATING,
                   statusText := "Traduzindo texto..." } : Screen).call
          (.translateText (jsTrim text) s.targetLanguage))
      rcases hp : processTranslationResult o r
        (({ s with modalVisible := false, state := .TRANSLATING,
                   statusText := "Traduzindo texto..." } : Screen).call
          (.translateText (jsTrim text) s.targetLanguage)) with ⟨_ | _, s2⟩ <;>
        rw [hp] at hc <;> simp [Screen.call] at hc <;>
        simp [issued, showSnackbar, hc]
  · intro hws
    have h := (jsTrim_eq_empty_iff text).2 hws
    simp [TextInputModal.handleSubmit, submitTextModal, AppTsx.handleTranslate, h, issued]

/-- C15 at a text with spaces around it and at a text of white space only. -/
theorem C15_submit_iff_trimmed_text_nonempty_witness :
    (submitTextModal
        { translation := .ok (some ⟨some "Bom dia", "Good morning"⟩),
          synthesis := .ok (some ⟨"UklGRg"⟩) }
        "  Bom dia\n" {}).2
      = handleTextTranslate
        { translation := .ok (some ⟨some "Bom dia", "Good morning"⟩),
          synthesis := .ok (some ⟨"UklGRg"⟩) }
        (jsTrim "  Bom dia\n") {} ∧
    jsTrim "  Bom dia\n" = "Bom dia" ∧
    (AppTsx.handleTranslate { translation := .ok (some ⟨"Bom dia", "Good morning", "English"⟩) }
      " \t\n" {}).requests = [] :=
  ⟨((C15_submit_iff_trimmed_text_nonempty "  Bom dia\n"
      { translation := .ok (some ⟨some "Bom dia", "Good morning"⟩),
        synthesis := .ok (some ⟨"UklGRg"⟩) } {}
      { translation := .ok (some ⟨"Bom dia", "Good morning", "English"⟩) } {}).2.2.1
      (by decide)).1,
   by decide,
   ((C15_submit_iff_trimmed_text_nonempty " \t\n"
      { translation := .ok (some ⟨some "Bom dia", "Good morning"⟩),
        synthesis := .ok (some ⟨"UklGRg"⟩) } {}
      { translation := .ok (some ⟨"Bom dia", "Good morning", "English"⟩) } {}).2.2.2.2
      (by decide)).2.2.2⟩

/-- C16 (counterexample). Submitting a text of three spaces in the modal of
`HomeScreen`, from the initial state: `onSubmit` is not invoked and no notice is shown
(the snackbar stays hidden and empty); the text stays in the input. -/
theorem C16_blank_submit_shows_no_notice :
    TextInputModal.handleSubmit "   " = (none, "   ") ∧
    (submitTextModal
        { translation := .ok (some ⟨some "Bom dia", "Good morning"⟩),
          synthesis := .ok (some ⟨"UklGRg"⟩) }
        "   " {}).2.snackbarVisible = false ∧
    (submitTextModal
        { translation := .ok (some ⟨some "Bom dia", "Good morning"⟩),
          synthesis := .ok (some ⟨"UklGRg"⟩) }
        "   " {}).2.snackbarMessage = "" ∧
    (submitTextModal
        { translation := .ok (some ⟨some "Bom dia", "Good morning"⟩),
          synthesis := .ok (some ⟨"UklGRg"⟩) }
        "   " {}).2.state = .IDLE := by
  decide

/-- C16 (amended). Submitting empty or whitespace-only text in the modal of
`HomeScreen` is silently ignored: `onSubmit` is not invoked, the input text is kept, and
the screen (status and snackbar included) is left exactly as it was, so the status stays
`IDLE` when it was `IDLE` and no notice is shown.  In App.tsx `handleTranslate` answers
such a text with the alert `'Por favor, digite algum texto'` and changes nothing else. -/
theorem C16_blank_submit_is_ignored (text : String) (o : Outcomes) (s : Screen)
    (a : AppTsx.Answers) (app : AppTsx.State)
    (hws : ∀ c ∈ text.data, isJsWhiteSpace c = true) :
    TextInputModal.handleSubmit text = (none, text) ∧
    submitTextModal o text s = (text, s) ∧
    (s.state = .IDLE → (submitTextModal o text s).2.state = .IDLE) ∧
    (submitTextModal o text s).2.snackbarVisible = s.snackbarVisible ∧
    (submitTextModal o text s).2.snackbarMessage = s.snackbarMessage ∧
    AppTsx.handleTranslate a text app =
      { app with alerts := app.alerts ++ [("Erro", "Por favor, digite algum texto")] } := by
  have h := (jsTrim_eq_empty_iff text).2 hws
  have hsub : submitTextModal o text s = (text, s) := by
    simp [submitTextModal, TextInputModal.handleSubmit, h]
  refine ⟨by simp [TextInputModal.handleSubmit, h], hsub, ?_, ?_, ?_, ?_⟩
  · intro hs
    rw [hsub]
    exact hs
  · rw [hsub]
  · rw [hsub]
  · simp [AppTsx.handleTranslate, h]

/-- C16 (amended) at the empty text while a playback is running: nothing changes. -/
theorem C16_blank_submit_is_ignored_witness :
    submitTextModal
        { translation := .ok (some ⟨some "Bom dia", "Good morning"⟩),
          synthesis := .ok (some ⟨"UklGRg"⟩) }
        "" { state := .PLAYING }
      = ("", { state := .PLAYING }) :=
  (C16_blank_submit_is_ignored ""
      { translation := .ok (some ⟨some "Bom dia", "Good morning"⟩),
        synthesis := .ok (some ⟨"UklGRg"⟩) }
      { state := .PLAYING }
      { translation := .ok (some ⟨"Bom dia", "Good morning", "English"⟩) } {}
      (by decide)).2.1

/-! ## Replay: claims C17 and C18 -/

/-- A `playAudioFromBase64` that resolves tracks the sound it returns. -/
theorem playAudioFromBase64_ok (a : AudioOutcome) (currentSound : Option Sound)
    (sound : Sound) (h : (playAudioFromBase64 a currentSound).1 = .ok sound) :
    (playAudioFromBase64 a currentSound).2 = some sound := by
  unfold playAudioFromBase64 at h ⊢
  cases currentSound <;> cases hs : a.stopRejects <;> cases hu : a.unloadRejects <;>
    cases hm : a.modeRejects <;> cases hc : a.created <;>
    simp [hs, hu, hm, hc] at h ⊢ <;> exact h

/-- C17. When no synthesized audio payload is cached (`audioBase64` is `null`, as in
the initial state, or empty), `handlePlayAudio` shows the notice
`'Nenhum áudio disponível'`, issues no call (so no playback call), and leaves the status
and the tracked sound unchanged. -/
theorem C17_replay_without_audio (o : Outcomes) (s : Screen)
    (h : s.audioBase64 = none ∨ s.audioBase64 = some "") :
    ({} : Screen).audioBase64 = none ∧
    handlePlayAudio o s = showSnackbar "Nenhum áudio disponível" s ∧
    (handlePlayAudio o s).snackbarMessage = "Nenhum áudio disponível" ∧
    (handlePlayAudio o s).snackbarVisible = true ∧
    issued s (handlePlayAudio o s) = [] ∧
    (handlePlayAudio o s).state = s.state ∧
    (handlePlayAudio o s).currentSound = s.currentSound := by
  have hp : handlePlayAudio o s = showSnackbar "Nenhum áudio disponível" s := by
    rcases h with h | h <;> simp [handlePlayAudio, h]
  rw [hp]
  exact ⟨rfl, rfl, rfl, rfl, by simp [issued, showSnackbar], rfl, rfl⟩

/-- C17 at the initial state. -/
theorem C17_replay_without_audio_witness :
    (handlePlayAudio
        { translation := .ok (some ⟨some "Bom dia", "Good morning"⟩),
          synthesis := .ok (some ⟨"UklGRg"⟩) } {}).snackbarMessage
      = "Nenhum áudio disponível" :=
  (C17_replay_without_audio
      { translation := .ok (some ⟨some "Bom dia", "Good morning"⟩),
        synthesis := .ok (some ⟨"UklGRg"⟩) } {} (Or.inl rfl)).2.2.1

/-- C18. When an audio payload is cached, `handlePlayAudio` issues exactly one call,
`playAudioFromBase64` with that payload (no synthesis and no translation request), and
keeps the payload.  When the playback starts the status is `PLAYING` and the
`didJustFinish` update then gives `IDLE`; when the playback fails the status is `IDLE`
and the snackbar shows `'Erro ao reproduzir áudio'`. -/
theorem C18_replay_plays_cached_payload (o : Outcomes) (s : Screen) (payload : String)
    (h : s.audioBase64 = some payload) (hne : payload ≠ "") :
    issued s (handlePlayAudio o s) = [.playAudioFromBase64 payload] ∧
    (handlePlayAudio o s).audioBase64 = some payload ∧
    (∀ sound, (playAudioFromBase64 o.audio s.currentSound).1 = .ok sound →
      (handlePlayAudio o s).state = .PLAYING ∧
      (handlePlayAudio o s).currentSound = some sound ∧
      (onPlaybackStatusUpdate true (handlePlayAudio o s)).state = .IDLE ∧
      (onPlaybackStatusUpdate false (handlePlayAudio o s)).state = .PLAYING) ∧
    (∀ error, (playAudioFromBase64 o.audio s.currentSound).1 = .error error →
      (handlePlayAudio o s).state = .IDLE ∧
      (handlePlayAudio o s).snackbarVisible = true ∧
      (handlePlayAudio o s).snackbarMessage = "Erro ao reproduzir áudio") := by
  unfold handlePlayAudio
  simp only [h, hne, if_false, Screen.call]
  rcases hq : playAudioFromBase64 o.audio s.currentSound with ⟨_ | sound, cur⟩
  · simp [issued, showSnackbar]
  · have hcur : cur = some sound := by
      have h1 := playAudioFromBase64_ok o.audio s.currentSound sound (by rw [hq])
      rw [hq] at h1
      exact h1
    simp [issued, showSnackbar, onPlaybackStatusUpdate, hcur]

/-- C18 at a cached payload `"UklGRg"` while no sound is tracked. -/
theorem C18_replay_plays_cached_payload_witness :
    issued { audioBase64 := some "UklGRg" }
      (handlePlayAudio
        { translation := .ok (some ⟨some "Bom dia", "Good morning"⟩),
          synthesis := .ok (some ⟨"AAAA"⟩) }
        { audioBase64 := some "UklGRg" })
      = [.playAudioFromBase64 "UklGRg"] ∧
    (handlePlayAudio
        { translation := .ok (some ⟨some "Bom dia", "Good morning"⟩),
          synthesis := .ok (some ⟨"AAAA"⟩) }
        { audioBase64 := some "UklGRg" }).state = .PLAYING :=
  ⟨(C18_replay_plays_cached_payload
      { translation := .ok (some ⟨some "Bom dia", "Good morning"⟩),
        synthesis := .ok (some ⟨"AAAA"⟩) }
      { audioBase64 := some "UklGRg" } "UklGRg" rfl (by decide)).1,
   ((C18_replay_plays_cached_payload
      { translation := .ok (some ⟨some "Bom dia", "Good morning"⟩),
        synthesis := .ok (some ⟨"AAAA"⟩) }
      { audioBase64 := some "UklGRg" } "UklGRg" rfl (by decide)).2.2.1 ⟨0⟩ rfl).1⟩

/-! ## Listing and clearing the history: claims C19 and C20 -/

/-- C19. The list `loadHistory` yields is empty when the persisted value is absent,
when it is not parseable as JSON (empty or other text), when it parses to a value that
is not an array, and when the read itself is rejected; otherwise it is the persisted
array, unchanged and in the stored order.  In every case `loadHistory` returns normally
with `loading` cleared. -/
theorem C19_loadHistory_yields_array_or_empty (getRejects : Bool) (st : Storage)
    (m : HistoryModal.ModalState) :
    (st HistoryModal.HISTORY_STORAGE_KEY = none →
      (HistoryModal.loadHistory getRejects st m).history = []) ∧
    (st HistoryModal.HISTORY_STORAGE_KEY = some .empty ∨
      st HistoryModal.HISTORY_STORAGE_KEY = some .garbage →
      (HistoryModal.loadHistory getRejects st m).history = []) ∧
    (st HistoryModal.HISTORY_STORAGE_KEY = some (.json .other) →
      (HistoryModal.loadHistory getRejects st m).history = []) ∧
    (getRejects = true → (HistoryModal.loadHistory getRejects st m).history = []) ∧
    (∀ H, getRejects = false →
      st HistoryModal.HISTORY_STORAGE_KEY = some (.json (.array H)) →
      (HistoryModal.loadHistory getRejects st m).history = H) ∧
    (HistoryModal.loadHistory getRejects st m).loading = false := by
  refine ⟨?_, ?_, ?_, ?_, ?_, ?_⟩
  · intro h
    cases getRejects <;> simp [HistoryModal.loadHistory, AsyncStorage.getItem, h]
  · intro h
    cases getRejects <;> rcases h with h | h <;>
      simp [HistoryModal.loadHistory, AsyncStorage.getItem, h, JSON.parse]
  · intro h
    cases getRejects <;>
      simp [HistoryModal.loadHistory, AsyncStorage.getItem, h, JSON.parse]
  · intro h
    simp [HistoryModal.loadHistory, AsyncStorage.getItem, h]
  · intro H hg h
    simp [HistoryModal.loadHistory, AsyncStorage.getItem, hg, h, JSON.parse]
  · unfold HistoryModal.loadHistory
    cases getRejects
    · rcases hst : st HistoryModal.HISTORY_STORAGE_KEY with _ | (_ | _ | (H | _)) <;>
        simp [AsyncStorage.getItem, JSON.parse, hst]
    · simp [AsyncStorage.getItem]

/-- C19 at a corrupt slot and at a slot holding two entries. -/
theorem C19_loadHistory_yields_array_or_empty_witness :
    (HistoryModal.loadHistory false
      (fun k => if k = HistoryModal.HISTORY_STORAGE_KEY then some .garbage else none)
      {}).history = [] ∧
    (HistoryModal.loadHistory false
      (HistoryModal.holding
        [⟨7, "Bom dia", "Good morning", "Inglês", "t7"⟩, ⟨3, "Olá", "Hello", "Inglês", "t3"⟩])
      {}).history
      = [⟨7, "Bom dia", "Good morning", "Inglês", "t7"⟩, ⟨3, "Olá", "Hello", "Inglês", "t3"⟩] :=
  ⟨(C19_loadHistory_yields_array_or_empty false
      (fun k => if k = HistoryModal.HISTORY_STORAGE_KEY then some .garbage else none)
      {}).2.1 (Or.inr (by decide)),
   (C19_loadHistory_yields_array_or_empty false
      (HistoryModal.holding
        [⟨7, "Bom dia", "Good morning", "Inglês", "t7"⟩, ⟨3, "Olá", "Hello", "Inglês", "t3"⟩])
      {}).2.2.2.2.1 _ rfl (by decide)⟩

/-- C20. For every prior content of the storage (absent, a list of any length, or
corrupt text), after a `clearHistory` whose `removeItem` is not rejected the history
slot is absent and listing the history gives the empty sequence: for
components/HistoryModal.js the component's `history` is `[]` and so is the list of any
later `loadHistory`; for services/storage.ts `getHistory` returns `[]`. -/
theorem C20_clear_then_list_is_empty (st : Storage) (m m' : HistoryModal.ModalState)
    (getRejects : Bool) :
    (HistoryModal.clearHistory false st m).2 HistoryModal.HISTORY_STORAGE_KEY = none ∧
    (HistoryModal.clearHistory false st m).1.history = [] ∧
    (HistoryModal.loadHistory getRejects (HistoryModal.clearHistory false st m).2 m').history
      = [] ∧
    (storage.clearHistory false st) storage.HISTORY_KEY = none ∧
    storage.getHistory getRejects (storage.clearHistory false st) = .array [] := by
  refine ⟨?_, ?_, ?_, ?_, ?_⟩
  · simp [HistoryModal.clearHistory, AsyncStorage.removeItem]
  · simp [HistoryModal.clearHistory, AsyncStorage.removeItem]
  · cases getRejects <;>
      simp [HistoryModal.clearHistory, HistoryModal.loadHistory, AsyncStorage.removeItem,
        AsyncStorage.getItem]
  · simp [storage.clearHistory, AsyncStorage.removeItem]
  · cases getRejects <;>
      simp [storage.clearHistory, storage.getHistory, AsyncStorage.removeItem,
        AsyncStorage.getItem]

/-! ## Clearing and saving: claims C21 and C22 -/

theorem removeItem_idem (st : Storage) (key : String) :
    (fun k => if k = key then none else (fun k => if k = key then none else st k) k) =
      (fun k => if k = key then (none : Option StoredText) else st k) := by
  funext k
  by_cases h : k = key <;> simp [h]

theorem removeItem_absent (st : Storage) (key : String) (h : st key = none) :
    (fun k => if k = key then (none : Option StoredText) else st k) = st := by
  funext k
  by_cases hk : k = key
  · simp [hk, h]
  · simp [hk]

/-- C21. Applying `clearHistory` twice leaves the store (and, for
components/HistoryModal.js, the component state) as applying it once does: when both
calls meet the same answer of `removeItem`, and when the first call succeeded whatever
the second one meets.  On a store whose history slot is already absent, a `clearHistory`
whose `removeItem` is not rejected leaves the store as it is, empty. -/
theorem C21_clearHistory_idempotent (st : Storage) (m : HistoryModal.ModalState)
    (rejects : Bool) :
    HistoryModal.clearHistory rejects (HistoryModal.clearHistory rejects st m).2
        (HistoryModal.clearHistory rejects st m).1
      = HistoryModal.clearHistory rejects st m ∧
    HistoryModal.clearHistory rejects (HistoryModal.clearHistory false st m).2
        (HistoryModal.clearHistory false st m).1
      = HistoryModal.clearHistory false st m ∧
    storage.clearHistory rejects (storage.clearHistory rejects st)
      = storage.clearHistory rejects st ∧
    storage.clearHistory rejects (storage.clearHistory false st)
      = storage.clearHistory false st ∧
    (st HistoryModal.HISTORY_STORAGE_KEY = none →
      (HistoryModal.clearHistory false st m).2 = st ∧
      (HistoryModal.clearHistory false st m).1.history = []) ∧
    (st storage.HISTORY_KEY = none → storage.clearHistory false st = st) ∧
    (HistoryModal.clearHistory false Storage.blank m).2 = Storage.blank ∧
    storage.clearHistory false Storage.blank = Storage.blank := by
  refine ⟨?_, ?_, ?_, ?_, ?_, ?_, ?_, ?_⟩
  · cases rejects <;>
      simp [HistoryModal.clearHistory, AsyncStorage.removeItem, removeItem_idem]
  · cases rejects <;>
      simp [HistoryModal.clearHistory, AsyncStorage.removeItem, removeItem_idem]
  · cases rejects <;>
      simp [storage.clearHistory, AsyncStorage.removeItem, removeItem_idem]
  · cases rejects <;>
      simp [storage.clearHistory, AsyncStorage.removeItem, removeItem_idem]
  · intro h
    simp [HistoryModal.clearHistory, AsyncStorage.removeItem, removeItem_absent st _ h]
  · intro h
    simp [storage.clearHistory, AsyncStorage.removeItem, removeItem_absent st _ h]
  · simp [HistoryModal.clearHistory, AsyncStorage.removeItem,
      removeItem_absent Storage.blank _ rfl]
  · simp [storage.clearHistory, AsyncStorage.removeItem,
      removeItem_absent Storage.blank _ rfl]

/-- C21 at an empty storage: clearing leaves it empty. -/
theorem C21_clearHistory_idempotent_witness :
    (HistoryModal.clearHistory false Storage.blank {}).2 = Storage.blank ∧
    (HistoryModal.clearHistory false Storage.blank {}).1.history = [] :=
  (C21_clearHistory_idempotent Storage.blank {} false).2.2.2.2.1 rfl

/-- C22. The function `saveToHistory` of components/HistoryModal.js always resolves to
a boolean.  When the read is rejected, when the persisted value is unparseable (empty
or other text) or is not an array, and when the write is rejected, it resolves to
`false`; whenever it resolves to `false` the storage is left exactly as it was.  It
resolves to `true` only when the slot holds the first 50 elements of the new entry
followed by the former list. -/
theorem C22_saveToHistory_false_drops_the_write (clock : Clock) (faults : StorageFaults)
    (st : Storage) (original translated language : String) :
    (faults.getRejects = true →
      HistoryModal.saveToHistory clock faults st original translated language = (false, st)) ∧
    (st HistoryModal.HISTORY_STORAGE_KEY = some .empty ∨
      st HistoryModal.HISTORY_STORAGE_KEY = some .garbage →
      HistoryModal.saveToHistory clock faults st original translated language = (false, st)) ∧
    (st HistoryModal.HISTORY_STORAGE_KEY = some (.json .other) →
      HistoryModal.saveToHistory clock faults st original translated language = (false, st)) ∧
    (faults.setRejects = true →
      HistoryModal.saveToHistory clock faults st original translated language = (false, st)) ∧
    ((HistoryModal.saveToHistory clock faults st original translated language).1 = false →
      (HistoryModal.saveToHistory clock faults st original translated language).2 = st) ∧
    ((HistoryModal.saveToHistory clock faults st original translated language).1 = true →
      (HistoryModal.saveToHistory clock faults st original translated language).2
          HistoryModal.HISTORY_STORAGE_KEY =
        some (.json (.array
          ((({ id := clock.now, original := original, translated := translated,
               language := language, timestamp := clock.iso } : HistoryEntry) ::
            HistoryModal.persisted st).take 50)))) := by
  refine ⟨?_, ?_, ?_, ?_, HistoryModal.saveToHistory_false clock faults st _ _ _,
    fun h => (HistoryModal.saveToHistory_true clock faults st _ _ _ h).2⟩
  · intro h
    simp [HistoryModal.saveToHistory, AsyncStorage.getItem, h]
  · intro h
    cases hg : faults.getRejects <;> rcases h with h | h <;>
      simp [HistoryModal.saveToHistory, AsyncStorage.getItem, hg, h, JSON.parse]
  · intro h
    cases hg : faults.getRejects <;>
      simp [HistoryModal.saveToHistory, AsyncStorage.getItem, hg, h, JSON.parse]
  · intro h
    unfold HistoryModal.saveToHistory
    cases hg : faults.getRejects <;> simp [AsyncStorage.getItem, AsyncStorage.setItem, h]
    rcases hst : st HistoryModal.HISTORY_STORAGE_KEY with _ | (_ | _ | (H | _)) <;>
      simp [JSON.parse]

/-- C22 at a rejected write and at a slot that holds a JSON object. -/
theorem C22_saveToHistory_false_drops_the_write_witness :
    (HistoryModal.saveToHistory ⟨7, "t7"⟩ { setRejects := true }
      (HistoryModal.holding [⟨3, "Olá", "Hello", "Inglês", "t3"⟩])
      "Bom dia" "Good morning" "Inglês")
      = (false, HistoryModal.holding [⟨3, "Olá", "Hello", "Inglês", "t3"⟩]) ∧
    (HistoryModal.saveToHistory ⟨7, "t7"⟩ {}
      (fun k => if k = HistoryModal.HISTORY_STORAGE_KEY then some (.json .other) else none)
      "Bom dia" "Good morning" "Inglês").1 = false :=
  ⟨(C22_saveToHistory_false_drops_the_write ⟨7, "t7"⟩ { setRejects := true }
      (HistoryModal.holding [⟨3, "Olá", "Hello", "Inglês", "t3"⟩])
      "Bom dia" "Good morning" "Inglês").2.2.2.1 rfl,
   congrArg Prod.fst
    ((C22_saveToHistory_false_drops_the_write ⟨7, "t7"⟩ {}
      (fun k => if k = HistoryModal.HISTORY_STORAGE_KEY then some (.json .other) else none)
      "Bom dia" "Good morning" "Inglês").2.2.1 (by decide))⟩

/-! ## Health probes and target language: claims C23 and C24 -/

/-- C23 (counterexample). On a network error `healthCheck` of src/services/api.js does
not return `false`: it throws `Error('Backend is not available')`. -/
theorem C23_healthCheck_throws_on_failure :
    healthCheck (.failed "Network Error" none) = .error ⟨"Backend is not available"⟩ := by
  decide

/-- C23 (amended). The probe `checkHealth` of services/api.ts never throws: for every
failure of the health request, and for a response without data, it returns `false`, and
it returns `true` exactly for a response whose `status` is `'ok'`.  The probe
`healthCheck` of src/services/api.js returns the response data of a successful request
and throws `Error('Backend is not available')` for every failure of the request. -/
theorem C23_checkHealth_swallows_healthCheck_rethrows (http : HttpOutcome HealthResponse) :
    (∃ b, AppTsx.checkHealth http = .ok b) ∧
    (∀ axiosMessage detail, http = .failed axiosMessage detail →
      AppTsx.checkHealth http = .ok false ∧
      healthCheck http = .error ⟨"Backend is not available"⟩) ∧
    (AppTsx.checkHealth http = .ok true ↔ http = .ok (some ⟨some "ok"⟩)) ∧
    (∀ data, http = .ok data → healthCheck http = .ok data) := by
  refine ⟨?_, ?_, ?_, ?_⟩
  · rcases http with (_ | d) | _
    · exact ⟨false, rfl⟩
    · exact ⟨decide (d.status = some "ok"), rfl⟩
    · exact ⟨false, rfl⟩
  · rintro m d rfl
    exact ⟨rfl, rfl⟩
  · rcases http with (_ | d) | _
    · simp [AppTsx.checkHealth]
    · cases d with
      | mk status => simp [AppTsx.checkHealth]
    · simp [AppTsx.checkHealth]
  · rintro data rfl
    rfl

/-- C23 (amended) at a timeout. -/
theorem C23_checkHealth_swallows_healthCheck_rethrows_witness :
    AppTsx.checkHealth (.failed "timeout of 30000ms exceeded" none) = .ok false ∧
    healthCheck (.failed "timeout of 30000ms exceeded" none)
      = .error ⟨"Backend is not available"⟩ :=
  (C23_checkHealth_swallows_healthCheck_rethrows
    (.failed "timeout of 30000ms exceeded" none)).2.1 _ _ rfl

theorem toggleLanguage_iterate (n : Nat) :
    (Nat.iterate toggleLanguage n {}).targetLanguage =
      if n % 2 = 0 then "Inglês" else "Changana" := by
  induction n with
  | zero => rfl
  | succ n ih =>
    rw [Function.iterate_succ_apply']
    simp only [toggleLanguage, showSnackbar, ih]
    rcases Nat.mod_two_eq_zero_or_one n with h | h
    · have h' : (n + 1) % 2 = 1 := by omega
      simp [h, h']
    · have h' : (n + 1) % 2 = 0 := by omega
      simp [h, h']

/-- C24. The function `toggleLanguage` maps `'Inglês'` to `'Changana'` and
`'Changana'` to `'Inglês'`.  The initial target language is `'Inglês'`
(`DEFAULT_LANGUAGE`); after `n` toggles from the initial state it is `'Inglês'` for even
`n` and `'Changana'` for odd `n`, so always one of the two `LANGUAGES`; and toggling
twice from either of them restores the target language. -/
theorem C24_toggleLanguage_flips_between_two (s : Screen) (n : Nat) :
    (s.targetLanguage = "Inglês" → (toggleLanguage s).targetLanguage = "Changana") ∧
    (s.targetLanguage = "Changana" → (toggleLanguage s).targetLanguage = "Inglês") ∧
    ({} : Screen).targetLanguage = APP_CONSTANTS.DEFAULT_LANGUAGE ∧
    (Nat.iterate toggleLanguage n {}).targetLanguage =
      (if n % 2 = 0 then "Inglês" else "Changana") ∧
    (Nat.iterate toggleLanguage n {}).targetLanguage ∈ APP_CONSTANTS.LANGUAGES ∧
    (s.targetLanguage ∈ APP_CONSTANTS.LANGUAGES →
      (toggleLanguage (toggleLanguage s)).targetLanguage = s.targetLanguage) := by
  refine ⟨?_, ?_, rfl, toggleLanguage_iterate n, ?_, ?_⟩
  · intro h
    simp [toggleLanguage, showSnackbar, h]
  · intro h
    simp [toggleLanguage, showSnackbar, h]
  · rw [toggleLanguage_iterate]
    split <;> simp [APP_CONSTANTS.LANGUAGES]
  · intro h
    simp only [APP_CONSTANTS.LANGUAGES, List.mem_cons, List.mem_singleton,
      List.not_mem_nil, or_false] at h
    rcases h with h | h <;> simp [toggleLanguage, showSnackbar, h]

/-- C24 at the initial state: one toggle gives `'Changana'`, two give `'Inglês'` again. -/
theorem C24_toggleLanguage_flips_between_two_witness :
    (toggleLanguage {}).targetLanguage = "Changana" ∧
    (toggleLanguage (toggleLanguage {})).targetLanguage = "Inglês" :=
  ⟨(C24_toggleLanguage_flips_between_two {} 0).1 rfl,
   (C24_toggleLanguage_flips_between_two {} 0).2.2.2.2.2 (by decide)⟩

/-! ## The audio adapter: claims C25 and C26 -/

/-- The logged `playAudioFromBase64` returns the same result and tracks the same sound
as the one used by the controller. -/
theorem audio.playAudioFromBase64_refines (o : AudioOutcome) (audioBase64 : String)
    (a : AudioAdapter) :
    (audio.playAudioFromBase64 o audioBase64 a).1
      = (LinguaMedia.playAudioFromBase64 o a.currentSound).1 ∧
    (audio.playAudioFromBase64 o audioBase64 a).2.currentSound
      = (LinguaMedia.playAudioFromBase64 o a.currentSound).2 := by
  unfold audio.playAudioFromBase64 LinguaMedia.playAudioFromBase64
  rcases hcur : a.currentSound with _ | old <;> cases hs : o.stopRejects <;>
    cases hu : o.unloadRejects <;> cases hm : o.modeRejects <;>
    rcases hc : o.created with _ | sound <;>
    simp [AudioAdapter.call, hcur]

/-- C25. In every call of `playAudioFromBase64` that reaches `createAsync` while a
sound is tracked, `stopAsync` and `unloadAsync` of that sound come first, in this order.
After every successful call the tracked current sound is the newly created one, and the
expo-av calls of that run are stop and unload of the formerly tracked sound (if there
was one), `setAudioModeAsync`, and `createAsync` of the data URI of the payload.  After
a failed call the tracked sound is the former one or none, never a new one. -/
theorem C25_play_replaces_tracked_sound (o : AudioOutcome) (audioBase64 : String)
    (a : AudioAdapter) :
    (∀ sound, (audio.playAudioFromBase64 o audioBase64 a).1 = .ok sound →
      (audio.playAudioFromBase64 o audioBase64 a).2.currentSound = some sound ∧
      o.created = some sound ∧
      (a.currentSound = none →
        (audio.playAudioFromBase64 o audioBase64 a).2.log = a.log ++
          [.setAudioModeAsync, .createAsync ("data:audio/wav;base64," ++ audioBase64)]) ∧
      (∀ old, a.currentSound = some old →
        (audio.playAudioFromBase64 o audioBase64 a).2.log = a.log ++
          [.stopAsync old, .unloadAsync old, .setAudioModeAsync,
           .createAsync ("data:audio/wav;base64," ++ audioBase64)])) ∧
    (∀ old, a.currentSound = some old →
      ∃ extra, (audio.playAudioFromBase64 o audioBase64 a).2.log = a.log ++ extra ∧
        ∀ uri, AudioCall.createAsync uri ∈ extra →
          extra = [.stopAsync old, .unloadAsync old, .setAudioModeAsync, .createAsync uri]) ∧
    (∀ error, (audio.playAudioFromBase64 o audioBase64 a).1 = .error error →
      (audio.playAudioFromBase64 o audioBase64 a).2.currentSound = a.currentSound ∨
      (audio.playAudioFromBase64 o audioBase64 a).2.currentSound = none) := by
  unfold audio.playAudioFromBase64
  refine ⟨?_, ?_, ?_⟩
  · intro sound
    rcases hcur : a.currentSound with _ | old <;> cases hs : o.stopRejects <;>
      cases hu : o.unloadRejects <;> cases hm : o.modeRejects <;>
      rcases hc : o.created with _ | made <;>
      simp [AudioAdapter.call]
  · intro old hold
    cases hs : o.stopRejects <;> cases hu : o.unloadRejects <;>
      cases hm : o.modeRejects <;> rcases hc : o.created with _ | made <;>
      simp [AudioAdapter.call, hold]
  · intro error
    rcases hcur : a.currentSound with _ | old <;> cases hs : o.stopRejects <;>
      cases hu : o.unloadRejects <;> cases hm : o.modeRejects <;>
      rcases hc : o.created with _ | made <;>
      simp [AudioAdapter.call, hcur]

/-- C25 at a tracked sound 1 replaced by the new sound 2. -/
theorem C25_play_replaces_tracked_sound_witness :
    (audio.playAudioFromBase64 { created := some ⟨2⟩ } "UklGRg"
      { currentSound := some ⟨1⟩ }).2.currentSound = some ⟨2⟩ ∧
    (audio.playAudioFromBase64 { created := some ⟨2⟩ } "UklGRg"
      { currentSound := some ⟨1⟩ }).2.log
      = [] ++ [.stopAsync ⟨1⟩, .unloadAsync ⟨1⟩, .setAudioModeAsync,
               .createAsync ("data:audio/wav;base64," ++ "UklGRg")] :=
  ⟨((C25_play_replaces_tracked_sound { created := some ⟨2⟩ } "UklGRg"
      { currentSound := some ⟨1⟩ }).1 ⟨2⟩ rfl).1,
   ((C25_play_replaces_tracked_sound { created := some ⟨2⟩ } "UklGRg"
      { currentSound := some ⟨1⟩ }).1 ⟨2⟩ rfl).2.2.2 ⟨1⟩ rfl⟩

/-- C26 (counterexample). While sound 1 is tracked and `stopAsync` rejects, `stopAudio`
called once or twice in a row leaves sound 1 tracked. -/
theorem C26_stopAudio_rejected_keeps_sound_tracked :
    (audio.stopAudio { stopRejects := true } { currentSound := some ⟨1⟩ }).currentSound
      = some ⟨1⟩ ∧
    (audio.stopAudio { stopRejects := true }
      (audio.stopAudio { stopRejects := true } { currentSound := some ⟨1⟩ })).currentSound
      = some ⟨1⟩ := by
  decide

/-- C26 (amended). The function `stopAudio` always returns normally.  It is a no-op
when no sound is tracked: it calls nothing and changes nothing.  When `stopAsync` and
`unloadAsync` do not reject, no sound is tracked afterwards and a second call in a row,
whatever expo-av answers, changes nothing more.  When one of them rejects, the error is
caught and the sound stays tracked. -/
theorem C26_stopAudio_noop_and_idempotent (o o2 : AudioOutcome) (a : AudioAdapter) :
    (a.currentSound = none → audio.stopAudio o a = a) ∧
    (o.stopRejects = false → o.unloadRejects = false →
      (audio.stopAudio o a).currentSound = none ∧
      audio.stopAudio o2 (audio.stopAudio o a) = audio.stopAudio o a) ∧
    (∀ sound, a.currentSound = some sound →
      (o.stopRejects = true ∨ o.unloadRejects = true) →
      (audio.stopAudio o a).currentSound = some sound) ∧
    (∀ sound, a.currentSound = some sound → o.stopRejects = false →
      o.unloadRejects = false →
      (audio.stopAudio o a).log = a.log ++ [.stopAsync sound, .unloadAsync sound]) := by
  refine ⟨?_, ?_, ?_, ?_⟩
  · intro h
    simp [audio.stopAudio, h]
  · intro hs hu
    have hnone : (audio.stopAudio o a).currentSound = none := by
      rcases hcur : a.currentSound with _ | sound <;>
        simp [audio.stopAudio, hcur, hs, hu, AudioAdapter.call]
    refine ⟨hnone, ?_⟩
    generalize audio.stopAudio o a = b at hnone
    simp [audio.stopAudio, hnone]
  · intro sound hcur h
    cases hs : o.stopRejects <;> cases hu : o.unloadRejects <;>
      simp [audio.stopAudio, hcur, hs, hu, AudioAdapter.call] at h ⊢
  · intro sound hcur hs hu
    simp [audio.stopAudio, hcur, hs, hu, AudioAdapter.call]

/-- C26 (amended) at a tracked sound that stops and unloads: a second call changes
nothing. -/
theorem C26_stopAudio_noop_and_idempotent_witness :
    audio.stopAudio {} (audio.stopAudio {} { currentSound := some ⟨1⟩ })
      = audio.stopAudio {} { currentSound := some ⟨1⟩ } ∧
    (audio.stopAudio {} { currentSound := some ⟨1⟩ }).currentSound = none :=
  ⟨((C26_stopAudio_noop_and_idempotent {} {} { currentSound := some ⟨1⟩ }).2.1 rfl rfl).2,
   ((C26_stopAudio_noop_and_idempotent {} {} { currentSound := some ⟨1⟩ }).2.1 rfl rfl).1⟩

/-! ## The store of services/storage.ts: claims C27 and C28 -/

/-- A fault-free `saveToHistory` of services/storage.ts on a persisted list `H`: the
new entry is put in front and one entry is popped when the result is longer than 50. -/
theorem storage.saveToHistory_of_array (clock : Clock) (faults : StorageFaults)
    (st : Storage) (H : List HistoryEntry) (o t l : String)
    (hH : st HISTORY_KEY = some (.json (.array H)))
    (hg : faults.getRejects = false) (hs : faults.setRejects = false) :
    getHistory false (saveToHistory clock faults st o t l) =
      .array (if H.length + 1 > 50
        then ((⟨clock.now, o, t, l, clock.iso⟩ : HistoryEntry) :: H).dropLast
        else (⟨clock.now, o, t, l, clock.iso⟩ : HistoryEntry) :: H) := by
  simp [saveToHistory, getHistory, AsyncStorage.getItem, AsyncStorage.setItem, hH, hg, hs,
    JSON.parse, JSON.stringify, StoredText.truthy, MAX_HISTORY_ITEMS]

/-- C27 (the code at a failing input). With 51 entries persisted under the key of
services/storage.ts, a fault-free `saveToHistory` leaves 51 entries persisted: the new
entry followed by the first 50 former ones; only one entry is popped. -/
theorem C27_storage_save_on_51_entries_keeps_51 :
    storage.getHistory false
      (storage.saveToHistory ⟨7, "t7"⟩ {}
        (storage.holding (.array (List.replicate 51 ⟨3, "Olá", "Hello", "English", "t3"⟩)))
        "Bom dia" "Good morning" "English")
      = .array (⟨7, "Bom dia", "Good morning", "English", "t7"⟩ ::
          List.replicate 50 ⟨3, "Olá", "Hello", "English", "t3"⟩) ∧
    (((⟨7, "Bom dia", "Good morning", "English", "t7"⟩ : HistoryEntry) ::
        List.replicate 50 ⟨3, "Olá", "Hello", "English", "t3"⟩).length = 51) := by
  decide

/-- The part of the listing contract that `getHistory` of services/storage.ts keeps: it
always returns, with `[]` for an absent, empty or unparseable value and for a rejected
read, and with the array itself for a persisted array. -/
theorem storage.getHistory_cases (getRejects : Bool) (st : Storage) :
    (getRejects = true → getHistory getRejects st = .array []) ∧
    (st HISTORY_KEY = none ∨ st HISTORY_KEY = some .empty ∨
      st HISTORY_KEY = some .garbage → getHistory getRejects st = .array []) ∧
    (∀ v, getRejects = false → st HISTORY_KEY = some (.json v) →
      getHistory getRejects st = v) := by
  refine ⟨?_, ?_, ?_⟩
  · intro h
    simp [getHistory, AsyncStorage.getItem, h]
  · intro h
    cases getRejects <;> rcases h with h | h | h <;>
      simp [getHistory, AsyncStorage.getItem, h, JSON.parse, StoredText.truthy]
  · intro v hg h
    simp [getHistory, AsyncStorage.getItem, hg, h, JSON.parse, StoredText.truthy]

/-- C28 (the code at a failing input). When the value persisted under the key of
services/storage.ts is valid JSON that is not an array, `getHistory` returns that value,
not the empty sequence; a later `saveToHistory` then drops its write. -/
theorem C28_getHistory_returns_non_array_value :
    storage.getHistory false (storage.holding .other) = .other ∧
    storage.getHistory false (storage.holding .other) ≠ .array [] ∧
    storage.getHistory false
      (storage.saveToHistory ⟨7, "t7"⟩ {} (storage.holding .other)
        "Bom dia" "Good morning" "English") = .other := by
  decide

/-! ## Saved original and cached audio: claims C29 and C30 -/

theorem processTranslationResult_first_call (o : Outcomes) (r : TranslationResponse)
    (s : Screen) :
    (issued s (processTranslationResult o (some r) s).2).head? =
      some (.saveToHistory (orElse r.original_text "Áudio") r.translated_text
        s.targetLanguage) := by
  unfold processTranslationResult
  simp only [saveTranslation, Screen.call]
  rcases synthesizeSpeech o.synthesis with _ | _ | a
  · simp [issued, ttsCatch, showSnackbar]
  · simp [issued, ttsCatch, showSnackbar]
  · simp only
    rcases playAudioFromBase64 o.audio s.currentSound with ⟨_ | _, cur⟩ <;>
      simp [issued, ttsCatch, showSnackbar]

/-- C29. The function `processTranslationResult` first calls `saveToHistory` with
`result.original_text || 'Áudio'`: with `'Áudio'` when `original_text` is absent or
empty, and with `original_text` itself when it is non-empty.  When that save succeeds,
the first entry of the history has this original and `translated_text` as translated. -/
theorem C29_saved_original_defaults_to_audio (o : Outcomes) (result : TranslationResponse)
    (s : Screen) :
    (result.original_text = none ∨ result.original_text = some "" →
      (issued s (processTranslationResult o (some result) s).2).head? =
        some (.saveToHistory "Áudio" result.translated_text s.targetLanguage) ∧
      ((HistoryModal.saveToHistory o.clock o.faults s.storage "Áudio"
          result.translated_text s.targetLanguage).1 = true →
        ∃ e rest,
          HistoryModal.persisted (processTranslationResult o (some result) s).2.storage
            = e :: rest ∧
          e.original = "Áudio" ∧ e.translated = result.translated_text)) ∧
    (∀ original, result.original_text = some original → original ≠ "" →
      (issued s (processTranslationResult o (some result) s).2).head? =
        some (.saveToHistory original result.translated_text s.targetLanguage) ∧
      ((HistoryModal.saveToHistory o.clock o.faults s.storage original
          result.translated_text s.targetLanguage).1 = true →
        ∃ e rest,
          HistoryModal.persisted (processTranslationResult o (some result) s).2.storage
            = e :: rest ∧
          e.original = original ∧ e.translated = result.translated_text)) := by
  have hcall := processTranslationResult_first_call o result s
  have hst := processTranslationResult_storage o result s
  constructor
  · intro h
    have hor : orElse result.original_text "Áudio" = "Áudio" := by
      rcases h with h | h <;> simp [orElse, h]
    rw [hor] at hcall hst
    refine ⟨hcall, fun hsave => ?_⟩
    rw [hst, HistoryModal.persisted_saveToHistory _ _ _ _ _ _ hsave]
    exact ⟨_, (HistoryModal.persisted s.storage).take 49, rfl, rfl, rfl⟩
  · intro original h hne
    have hor : orElse result.original_text "Áudio" = original := by
      simp [orElse, h, hne]
    rw [hor] at hcall hst
    refine ⟨hcall, fun hsave => ?_⟩
    rw [hst, HistoryModal.persisted_saveToHistory _ _ _ _ _ _ hsave]
    exact ⟨_, (HistoryModal.persisted s.storage).take 49, rfl, rfl, rfl⟩

/-- C29 at an audio translation without transcript and at one with the transcript
`Bom dia`. -/
theorem C29_saved_original_defaults_to_audio_witness :
    (issued {}
      (processTranslationResult
        { translation := .ok (some ⟨none, "Good morning"⟩),
          synthesis := .ok (some ⟨"UklGRg"⟩) }
        (some ⟨none, "Good morning"⟩) {}).2).head?
      = some (.saveToHistory "Áudio" "Good morning" "Inglês") ∧
    (issued {}
      (processTranslationResult
        { translation := .ok (some ⟨some "Bom dia", "Good morning"⟩),
          synthesis := .ok (some ⟨"UklGRg"⟩) }
        (some ⟨some "Bom dia", "Good morning"⟩) {}).2).head?
      = some (.saveToHistory "Bom dia" "Good morning" "Inglês") :=
  ⟨((C29_saved_original_defaults_to_audio
      { translation := .ok (some ⟨none, "Good morning"⟩),
        synthesis := .ok (some ⟨"UklGRg"⟩) }
      ⟨none, "Good morning"⟩ {}).1 (Or.inl rfl)).1,
   ((C29_saved_original_defaults_to_audio
      { translation := .ok (some ⟨some "Bom dia", "Good morning"⟩),
        synthesis := .ok (some ⟨"UklGRg"⟩) }
      ⟨some "Bom dia", "Good morning"⟩ {}).2 "Bom dia" rfl (by decide)).1⟩

/-- C30 (counterexample). A first submission succeeds (`Good morning`, payload `A1`)
and its playback finishes; a second submission is translated (`Good night`) but its
synthesis request fails.  The status is then `IDLE`, the held translated text is
`Good night`, and the cached payload is still `A1`, the audio of `Good morning`, which
is what the replay plays. -/
theorem C30_failed_synthesis_keeps_earlier_payload :
    (handleTextTranslate
      { translation := .ok (some ⟨some "Boa noite", "Good night"⟩),
        synthesis := .failed "Network Error" none }
      "Boa noite"
      (onPlaybackStatusUpdate true
        (handleTextTranslate
          { translation := .ok (some ⟨some "Bom dia", "Good morning"⟩),
            synthesis := .ok (some ⟨"A1"⟩) }
          "Bom dia" {}))).state = .IDLE ∧
    (handleTextTranslate
      { translation := .ok (some ⟨some "Boa noite", "Good night"⟩),
        synthesis := .failed "Network Error" none }
      "Boa noite"
      (onPlaybackStatusUpdate true
        (handleTextTranslate
          { translation := .ok (some ⟨some "Bom dia", "Good morning"⟩),
            synthesis := .ok (some ⟨"A1"⟩) }
          "Bom dia" {}))).translatedText = "Good night" ∧
    (handleTextTranslate
      { translation := .ok (some ⟨some "Boa noite", "Good night"⟩),
        synthesis := .failed "Network Error" none }
      "Boa noite"
      (onPlaybackStatusUpdate true
        (handleTextTranslate
          { translation := .ok (some ⟨some "Bom dia", "Good morning"⟩),
            synthesis := .ok (some ⟨"A1"⟩) }
          "Bom dia" {}))).audioBase64 = some "A1" ∧
    (handlePlayAudio
      { translation := .ok (some ⟨some "Boa noite", "Good night"⟩),
        synthesis := .failed "Network Error" none }
      (handleTextTranslate
        { translation := .ok (some ⟨some "Boa noite", "Good night"⟩),
          synthesis := .failed "Network Error" none }
        "Boa noite"
        (onPlaybackStatusUpdate true
          (handleTextTranslate
            { translation := .ok (some ⟨some "Bom dia", "Good morning"⟩),
              synthesis := .ok (some ⟨"A1"⟩) }
            "Bom dia" {})))).calls
      = [.translateText "Bom dia" "Inglês",
         .saveToHistory "Bom dia" "Good morning" "Inglês",
         .synthesizeSpeech "Good morning",
         .playAudioFromBase64 "A1",
         .translateText "Boa noite" "Inglês",
         .saveToHistory "Boa noite" "Good night" "Inglês",
         .synthesizeSpeech "Good night",
         .playAudioFromBase64 "A1"] := by
  decide

/-- C30 (amended). After a text pipeline run whose synthesis succeeded, the cached
audio payload is the one synthesis returned for the currently held translated text (the
text the `synthesizeSpeech` request of that run was issued for).  After a run whose
synthesis failed, the status is `IDLE`, the held translated text is the new translation
and the cached payload is the one held before the run.  A run whose translation failed,
a replay and a playback status update change neither the held text nor the payload. -/
theorem C30_cached_payload_after_a_run (o : Outcomes) (text : String) (s : Screen) :
    (∀ result audioResult, translateText o.translation = .ok (some result) →
      synthesizeSpeech o.synthesis = .ok (some audioResult) →
      (handleTextTranslate o text s).translatedText = result.translated_text ∧
      (handleTextTranslate o text s).audioBase64 = some audioResult.audio_base64 ∧
      Call.synthesizeSpeech result.translated_text ∈
        issued s (handleTextTranslate o text s)) ∧
    (∀ result error, translateText o.translation = .ok (some result) →
      synthesizeSpeech o.synthesis = .error error →
      (handleTextTranslate o text s).state = .IDLE ∧
      (handleTextTranslate o text s).translatedText = result.translated_text ∧
      (handleTextTranslate o text s).audioBase64 = s.audioBase64) ∧
    (∀ error, translateText o.translation = .error error →
      (handleTextTranslate o text s).translatedText = s.translatedText ∧
      (handleTextTranslate o text s).audioBase64 = s.audioBase64) ∧
    ((handlePlayAudio o s).translatedText = s.translatedText ∧
      (handlePlayAudio o s).audioBase64 = s.audioBase64) ∧
    (∀ didJustFinish,
      (onPlaybackStatusUpdate didJustFinish s).translatedText = s.translatedText ∧
      (onPlaybackStatusUpdate didJustFinish s).audioBase64 = s.audioBase64) := by
  refine ⟨?_, ?_, ?_, ?_, ?_⟩
  · intro result audioResult ht hs
    rcases hq : playAudioFromBase64 o.audio s.currentSound with ⟨_ | _, cur⟩ <;>
      simp [handleTextTranslate, processTranslationResult, ht, hs, hq, saveTranslation,
        Screen.call, showSnackbar, ttsCatch, issued]
  · intro result error ht hs
    simp [handleTextTranslate, processTranslationResult, ht, hs, saveTranslation,
      Screen.call, showSnackbar, ttsCatch]
  · intro error ht
    simp [handleTextTranslate, ht, Screen.call, showSnackbar]
  · rcases ha : s.audioBase64 with _ | b
    · simp [handlePlayAudio, ha, showSnackbar]
    · by_cases hb : b = ""
      · simp [handlePlayAudio, ha, hb, showSnackbar]
      · rcases hq : playAudioFromBase64 o.audio s.currentSound with ⟨_ | _, cur⟩ <;>
          simp [handlePlayAudio, ha, hb, hq, showSnackbar, Screen.call]
  · intro d
    cases d <;> simp [onPlaybackStatusUpdate]

/-- C30 (amended) at a successful run and at a run whose synthesis fails while the
payload `A1` is cached. -/
theorem C30_cached_payload_after_a_run_witness :
    (handleTextTranslate
        { translation := .ok (some ⟨some "Bom dia", "Good morning"⟩),
          synthesis := .ok (some ⟨"A1"⟩) }
        "Bom dia" {}).audioBase64 = some "A1" ∧
    (handleTextTranslate
        { translation := .ok (some ⟨some "Boa noite", "Good night"⟩),
          synthesis := .failed "Network Error" none }
        "Boa noite" { translatedText := "Good morning", audioBase64 := some "A1" }).audioBase64
      = some "A1" :=
  ⟨((C30_cached_payload_after_a_run
      { translation := .ok (some ⟨some "Bom dia", "Good morning"⟩),
        synthesis := .ok (some ⟨"A1"⟩) }
      "Bom dia" {}).1 ⟨some "Bom dia", "Good morning"⟩ ⟨"A1"⟩ rfl rfl).2.1,
   ((C30_cached_payload_after_a_run
      { translation := .ok (some ⟨some "Boa noite", "Good night"⟩),
        synthesis := .failed "Network Error" none }
      "Boa noite" { translatedText := "Good morning", audioBase64 := some "A1" }).2.1
      ⟨some "Boa noite", "Good night"⟩ ⟨"Speech synthesis failed"⟩ rfl rfl).2.2⟩

end LinguaMedia
